import Mathlib

/-!
Verification of the intv-web CP-1610 emulator core.

This file gives a shallow embedding of the emulator sources:

* `Bus` and its clock (src/Bus.ts),
* the `RAM` bus device (src/RAM.ts),
* the sequence-table CP1610 implementation (src/cp1610.ts: the
  `BusSequences`-driven class), covering reset, fetch, decode,
  effective-address resolution, every bus phase action, and the full
  execute switch.

JavaScript numeric conventions are made explicit: registers live in a
Uint16Array, so every register store truncates to 16 bits (`u16`), while
intermediate arithmetic is unbounded; `bus.data` masks to 16 bits in its
setter.  Theorems about the machine follow the definitions.
-/

namespace Intv

/-- Truncation applied by a Uint16Array store: value mod 2^16
(JavaScript ToUint16). -/
def u16 (x : Int) : Nat := (x % 65536).toNat

/-- Bus control-flag encodings from src/Bus.ts.  The source names NACT
`Bus.___`. -/
def Bus.NACT : Nat := 0

def Bus.ADAR : Nat := 1

def Bus.IAB : Nat := 2

def Bus.DTB : Nat := 3

def Bus.BAR : Nat := 4

def Bus.DW : Nat := 5

def Bus.DWS : Nat := 6

def Bus.INTAK : Nat := 7

/-- The shared bus (src/Bus.ts): a 16-bit data word, control flags and a
tick counter. -/
structure Bus where
  ticks : Nat := 0
  _data : Nat := 0
  flags : Nat := Bus.NACT
deriving DecidableEq

/-- Bus data getter: masks to 16 bits. -/
def Bus.data (b : Bus) : Nat := b._data &&& 65535

/-- Bus data setter: masks to 16 bits. -/
def Bus.setData (b : Bus) (v : Nat) : Bus := { b with _data := v &&& 65535 }

/-- Bus.clock from src/Bus.ts: advance the tick counter mod 4; when the
wrapped counter reads 3 with no activity the data lines float to 0xFFFF. -/
def Bus.clock (b : Bus) : Bus :=
  let b := { b with ticks := (b.ticks + 1) % 4 }
  if b.ticks = 3 ∧ b.flags = Bus.NACT then { b with _data := 65535 } else b

/-- The RAM bus device (src/RAM.ts): a word array starting at a base
address, with a latched address selection.  `_addr = none` means the
device is not selected. -/
structure RAM where
  data : List Nat
  start : Nat
  _addr : Option Nat := none
  ticks : Nat := 0
deriving DecidableEq

/-- RAM._readAndDecodeAddr: latch `bus.data - start` when it falls inside
the window, otherwise clear the selection.  The subtraction is done on
plain JavaScript numbers, hence the `Int` intermediate. -/
def RAM._readAndDecodeAddr (ram : RAM) (bus : Bus) : RAM :=
  let addr : Int := (bus.data : Int) - ram.start
  if 0 ≤ addr ∧ addr < ram.data.length then { ram with _addr := some addr.toNat }
  else { ram with _addr := none }

/-- RAM._assertDataAtAddrToBus: when selected and in range, drive the
stored word onto the bus and clear the selection.  An out-of-range index
reads `undefined` in the source and returns without driving. -/
def RAM._assertDataAtAddrToBus (ram : RAM) (bus : Bus) : RAM × Bus :=
  match ram._addr with
  | none => (ram, bus)
  | some a =>
    match ram.data[a]? with
    | none => (ram, bus)
    | some v => ({ ram with _addr := none }, bus.setData v)

/-- RAM._readDataOnBusToAddr: when selected, store the bus word.
(`List.set` ignores an out-of-range index, as a Uint16Array store does.) -/
def RAM._readDataOnBusToAddr (ram : RAM) (bus : Bus) : RAM :=
  match ram._addr with
  | none => ram
  | some a => { ram with data := ram.data.set a bus.data }

/-- RAM.clock from src/RAM.ts: advance the local tick counter and react to
the current bus phase at the phase-specific time slot. -/
def RAM.clock (ram : RAM) (bus : Bus) : RAM × Bus :=
  let ram := { ram with ticks := (ram.ticks + 1) % 4 }
  if bus.flags = Bus.BAR then
    if ram.ticks = 3 then (ram._readAndDecodeAddr bus, bus) else (ram, bus)
  else if bus.flags = Bus.DTB then
    if ram.ticks = 1 then ram._assertDataAtAddrToBus bus else (ram, bus)
  else if bus.flags = Bus.ADAR then
    if ram.ticks = 1 then ram._assertDataAtAddrToBus bus
    else if ram.ticks = 3 then (ram._readAndDecodeAddr bus, bus)
    else (ram, bus)
  else if bus.flags = Bus.DWS then
    if ram.ticks = 3 then (ram._readDataOnBusToAddr bus, bus) else (ram, bus)
  else if bus.flags = Bus.IAB then
    if ram.ticks = 1 then ram._assertDataAtAddrToBus bus else (ram, bus)
  else (ram, bus)

/-- The bus-sequence names of the sequence-table CP1610 implementation
(the `BusSequences` record in src/cp1610.ts). -/
inductive BusSeq
  | INITIALIZATION
  | INSTRUCTION_FETCH
  | ADDRESS_INDIRECT_READ
  | ADDRESS_INDIRECT_READ_SDBD
  | ADDRESS_INDIRECT_WRITE
  | ADDRESS_DIRECT_READ
  | ADDRESS_DIRECT_WRITE
  | JUMP
  | BRANCH_SKIP
  | BRANCH_JUMP
  | EXEC_NACT_2
  | EXEC_NACT_4
deriving DecidableEq

/-- The phase list of each bus sequence, exactly as in the `BusSequences`
table of src/cp1610.ts. -/
def BusSequences : BusSeq → List Nat
  | .INITIALIZATION => [Bus.NACT, Bus.IAB, Bus.NACT, Bus.NACT, Bus.NACT]
  | .INSTRUCTION_FETCH => [Bus.BAR, Bus.NACT, Bus.DTB, Bus.NACT]
  | .ADDRESS_INDIRECT_READ => [Bus.BAR, Bus.NACT, Bus.DTB, Bus.NACT]
  | .ADDRESS_INDIRECT_READ_SDBD =>
      [Bus.BAR, Bus.NACT, Bus.DTB, Bus.BAR, Bus.NACT, Bus.DTB]
  | .ADDRESS_INDIRECT_WRITE => [Bus.BAR, Bus.NACT, Bus.DW, Bus.DWS, Bus.NACT]
  | .ADDRESS_DIRECT_READ =>
      [Bus.BAR, Bus.NACT, Bus.ADAR, Bus.NACT, Bus.DTB, Bus.NACT]
  | .ADDRESS_DIRECT_WRITE =>
      [Bus.BAR, Bus.NACT, Bus.ADAR, Bus.NACT, Bus.DW, Bus.DWS, Bus.NACT]
  | .JUMP =>
      [Bus.BAR, Bus.NACT, Bus.DTB, Bus.NACT, Bus.BAR, Bus.NACT, Bus.DTB,
        Bus.NACT, Bus.NACT]
  | .BRANCH_SKIP => [Bus.NACT, Bus.NACT, Bus.NACT]
  | .BRANCH_JUMP => [Bus.BAR, Bus.NACT, Bus.DTB, Bus.NACT, Bus.NACT]
  | .EXEC_NACT_2 => [Bus.NACT, Bus.NACT]
  | .EXEC_NACT_4 => [Bus.NACT, Bus.NACT, Bus.NACT, Bus.NACT]

/-- State of the sequence-table CP1610 (src/cp1610.ts).  Registers are a
list of eight words; every store goes through `u16`. -/
structure CP1610 where
  ts : Nat := 0
  busSequence : BusSeq := .INITIALIZATION
  busSequenceIndex : Nat := 0
  opcode : Nat := 0
  external : Bool := false
  operation : Nat := 0
  f1 : Nat := 0
  f2 : Nat := 0
  effectiveAddress : Nat := 0
  jumpOperand1 : Option Nat := none
  jumpOperand2 : Option Nat := none
  dtbData : Nat := 0xaaaa
  r : List Nat := [0, 0, 0, 0, 0, 0, 0, 0]
  s : Bool := false
  c : Bool := false
  z : Bool := false
  o : Bool := false
  i : Bool := false
  d : Bool := false
  halted : Bool := false
deriving DecidableEq

/-- Register read `this.r[i]`. -/
def getReg (r : List Nat) (i : Nat) : Nat := r.getD i 0

/-- Register store `this.r[i] = v`: a Uint16Array store truncates with
`u16`. -/
def setReg (r : List Nat) (i : Nat) (v : Int) : List Nat := r.set i (u16 v)

/-- The reset vector, `CP1610.RESET_VECTOR`. -/
def RESET_VECTOR : Nat := 0x1000

/-- Branch-condition evaluation from the decode block (the switch over the
low three opcode bits; the inversion bit is applied by the caller). -/
def evalBranchCondition (cpu : CP1610) (f2 : Nat) : Bool :=
  match f2 with
  | 0 => true
  | 1 => cpu.c
  | 2 => cpu.o
  | 3 => !cpu.s
  | 4 => cpu.z
  | 5 => cpu.s != cpu.o
  | 6 => cpu.z || (cpu.s != cpu.o)
  | 7 => cpu.s != cpu.c
  | _ => false

/-- Execute arm for the register shift operations (operation class 001 of
the internal execute switch).  In the source, `o << (shift - 2)` with
shift = 1 is a JavaScript 32-bit shift by 31 whose low 16 bits are zero,
and the right-shift link contribution `o << (17 - shift)` with shift = 1
lands above bit 15; both vanish under the Uint16Array store, which is how
they are rendered here. -/
def executeShift (cpu : CP1610) : CP1610 :=
  let i := cpu.f2 &&& 3
  let r := getReg cpu.r i
  let rightShift : Bool := cpu.f1 &&& 4 != 0
  let withLinkBits : Bool := cpu.f1 &&& 2 != 0
  let arithmetic : Bool := cpu.f1 &&& 1 != 0
  let shiftTwice : Bool := cpu.f2 &&& 4 != 0
  if cpu.f1 = 0 then
    let lo := r &&& 0x00ff
    let rNew := if shiftTwice then lo ||| (lo <<< 8)
      else ((r &&& 0xff00) >>> 8) ||| (lo <<< 8)
    let cpu := { cpu with r := setReg cpu.r i (rNew : Int) }
    { cpu with s := decide (getReg cpu.r i &&& 0x0080 ≠ 0),
               z := decide (getReg cpu.r i = 0) }
  else
    let shift := if shiftTwice then 2 else 1
    let signBit := if rightShift then 0x0080 else 0x8000
    let cNum : Nat := if cpu.c && !arithmetic then 1 else 0
    let oNum : Nat := if cpu.o && !arithmetic then 1 else 0
    let cpu :=
      if withLinkBits then
        let carryBit := if rightShift then 0x0001 else 0x8000
        let cpu := { cpu with c := decide (r &&& carryBit ≠ 0) }
        if shiftTwice then
          let overflowBit := if rightShift then 0x0002 else 0x4000
          { cpu with o := decide (r &&& overflowBit ≠ 0) }
        else cpu
      else cpu
    let rNew : Nat :=
      if !rightShift then
        (r <<< shift) ||| (cNum <<< (shift - 1)) |||
          (if shiftTwice then oNum else 0)
      else if arithmetic then
        let signBits := 0x8000 &&& r
        let signBits := if shiftTwice then signBits ||| (signBits >>> 1)
          else signBits
        signBits ||| (r >>> shift)
      else if withLinkBits then
        (r >>> shift) ||| (cNum <<< (16 - shift)) ||| (oNum <<< (17 - shift))
      else r >>> shift
    let cpu := { cpu with r := setReg cpu.r i (rNew : Int) }
    { cpu with s := decide (getReg cpu.r i &&& signBit ≠ 0),
               z := decide (getReg cpu.r i = 0) }

/-- Execute switch for external instructions (the `if (this.#external)`
branch of the EXECUTE INSTRUCTION block in src/cp1610.ts).  The ADD, SUB
and CMP arms are empty in the source. -/
def executeExternal (cpu : CP1610) : CP1610 :=
  match cpu.operation with
  | 0 =>
    if cpu.busSequence = .BRANCH_JUMP then
      let direction : Int := if cpu.opcode &&& 0x0020 ≠ 0 then -1 else 1
      let disp : Int :=
        direction * ((cpu.dtbData : Int) + (if direction > 0 then 0 else 1))
      { cpu with r := setReg cpu.r 7 ((getReg cpu.r 7 : Int) + disp) }
    else
      { cpu with r := setReg cpu.r 7 ((getReg cpu.r 7 : Int) + 1) }
  | 1 => cpu
  | 2 => { cpu with r := setReg cpu.r cpu.f2 (cpu.dtbData : Int) }
  | 3 => cpu
  | 4 => cpu
  | 5 => cpu
  | 6 =>
    let i := cpu.f2
    let cpu := { cpu with
      r := setReg cpu.r i ((getReg cpu.r i &&& cpu.dtbData : Nat) : Int) }
    { cpu with s := decide (getReg cpu.r i &&& 0x8000 ≠ 0),
               z := decide (getReg cpu.r i = 0) }
  | _ =>
    let i := cpu.f2
    let cpu := { cpu with
      r := setReg cpu.r i ((getReg cpu.r i ^^^ cpu.dtbData : Nat) : Int) }
    { cpu with s := decide (getReg cpu.r i &&& 0x8000 ≠ 0),
               z := decide (getReg cpu.r i = 0) }

/-- Execute switch for internal instructions (the `else` branch of the
EXECUTE INSTRUCTION block in src/cp1610.ts).  The source asserts the jump
operands non-null with `!`; that is rendered with `Option.getD 0`. -/
def executeInternal (cpu : CP1610) : CP1610 :=
  match cpu.operation with
  | 0 =>
    match cpu.f1 with
    | 0 =>
      match cpu.f2 with
      | 4 =>
        let j1 := cpu.jumpOperand1.getD 0
        let j2 := cpu.jumpOperand2.getD 0
        let rr := (0x0300 &&& j1) >>> 8
        let ff := 0x0003 &&& j1
        let target := ((0x00fc &&& j1) <<< 8) ||| (0x03ff &&& j2)
        let cpu :=
          match rr with
          | 0 => { cpu with r := setReg cpu.r 4 (getReg cpu.r 7 : Int) }
          | 1 => { cpu with r := setReg cpu.r 5 (getReg cpu.r 7 : Int) }
          | 2 => { cpu with r := setReg cpu.r 6 (getReg cpu.r 7 : Int) }
          | _ => cpu
        let cpu := if ff = 1 then { cpu with i := true } else cpu
        let cpu := if ff = 2 then { cpu with i := false } else cpu
        { cpu with r := setReg cpu.r 7 (target : Int) }
      | _ => cpu
    | 1 =>
      let i := cpu.f2
      let cpu := { cpu with r := setReg cpu.r i ((getReg cpu.r i : Int) + 1) }
      { cpu with s := decide (getReg cpu.r i &&& 0x8000 ≠ 0),
                 z := decide (getReg cpu.r i = 0) }
    | 2 =>
      let i := cpu.f2
      let cpu := { cpu with r := setReg cpu.r i ((getReg cpu.r i : Int) - 1) }
      { cpu with s := decide (getReg cpu.r i &&& 0x8000 ≠ 0),
                 z := decide (getReg cpu.r i = 0) }
    | 3 =>
      let i := cpu.f2
      let cpu := { cpu with
        r := setReg cpu.r i ((getReg cpu.r i ^^^ 0xffff : Nat) : Int) }
      { cpu with s := decide (getReg cpu.r i &&& 0x8000 ≠ 0),
                 z := decide (getReg cpu.r i = 0) }
    | 4 =>
      let i := cpu.f2
      let cpu := { cpu with c := decide (getReg cpu.r i = 0x0000),
                            o := decide (getReg cpu.r i = 0x8000) }
      let cpu := { cpu with r := setReg cpu.r i (-(getReg cpu.r i : Int)) }
      { cpu with s := decide (getReg cpu.r i &&& 0x8000 ≠ 0),
                 z := decide (getReg cpu.r i = 0) }
    | 5 =>
      let i := cpu.f2
      let cpu :=
        if cpu.c then
          let cpu := { cpu with o := decide (getReg cpu.r i = 0x7fff),
                                c := decide (getReg cpu.r i = 0xffff) }
          { cpu with r := setReg cpu.r i ((getReg cpu.r i : Int) + 1) }
        else cpu
      { cpu with s := decide (getReg cpu.r i &&& 0x8000 ≠ 0),
                 z := decide (getReg cpu.r i = 0) }
    | 6 =>
      match cpu.f2 with
      | 0 | 1 | 2 | 3 =>
        let i := cpu.f2
        let flags : Nat := (if cpu.s then 8 else 0) ||| (if cpu.z then 4 else 0) |||
          (if cpu.o then 2 else 0) ||| (if cpu.c then 1 else 0)
        let v : Nat := (flags <<< 4) ||| (flags <<< 12)
        { cpu with r := setReg cpu.r i (v : Int) }
      | _ => cpu
    | _ =>
      let flags := (getReg cpu.r cpu.f2 &&& 0x00f0) >>> 4
      { cpu with s := decide (flags &&& 8 ≠ 0), z := decide (flags &&& 4 ≠ 0),
                 o := decide (flags &&& 2 ≠ 0), c := decide (flags &&& 1 ≠ 0) }
  | 1 => executeShift cpu
  | 2 =>
    let i := cpu.f2
    let cpu := { cpu with r := setReg cpu.r i (getReg cpu.r cpu.f1 : Int) }
    { cpu with s := decide (getReg cpu.r i &&& 0x8000 ≠ 0),
               z := decide (getReg cpu.r i = 0) }
  | 3 =>
    let r1 := getReg cpu.r cpu.f1
    let r2 := getReg cpu.r cpu.f2
    let result := r1 + r2
    let r := setReg cpu.r cpu.f2 (result : Int)
    let c := decide (result > 0xffff)
    let s := decide (getReg r cpu.f2 &&& 0x8000 ≠ 0)
    let o := decide (0x8000 &&& r1 = 0x8000 &&& r2) &&
      (s != decide (0x8000 &&& r1 ≠ 0))
    let z := decide (getReg r cpu.f2 = 0)
    { cpu with r := r, c := c, s := s, o := o, z := z }
  | 4 | 5 =>
    let r1 := getReg cpu.r cpu.f1
    let r2 := getReg cpu.r cpu.f2
    let result : Int := (r2 : Int) - (r1 : Int)
    let c := decide (r2 ≥ r1)
    let s := decide (u16 result &&& 0x8000 ≠ 0)
    let z := decide (result = 0)
    let o := decide (¬(0x8000 &&& r1 = 0x8000 &&& r2)) &&
      (s == decide (0x8000 &&& r1 ≠ 0))
    let cpu := { cpu with c := c, s := s, z := z, o := o }
    if cpu.operation = 4 then { cpu with r := setReg cpu.r cpu.f2 result }
    else cpu
  | 6 =>
    let i := cpu.f2
    let cpu := { cpu with
      r := setReg cpu.r i ((getReg cpu.r i &&& getReg cpu.r cpu.f1 : Nat) : Int) }
    { cpu with s := decide (getReg cpu.r i &&& 0x8000 ≠ 0),
               z := decide (getReg cpu.r i = 0) }
  | _ =>
    let i := cpu.f2
    let cpu := { cpu with
      r := setReg cpu.r i ((getReg cpu.r i ^^^ getReg cpu.r cpu.f1 : Nat) : Int) }
    { cpu with s := decide (getReg cpu.r i &&& 0x8000 ≠ 0),
               z := decide (getReg cpu.r i = 0) }

/-- External-instruction decode arm (the `if (this.#external)` branch of
the decode block in src/cp1610.ts): branch-condition evaluation, sequence
selection, effective-address resolution with register pre/post
adjustments, and the SDBD sequence upgrade.  Split into the three
statements of the source; this first piece is the sequence-selection
switch. -/
def decodeExternalSeq (cpu : CP1610) : CP1610 :=
  match cpu.operation with
  | 0 =>
    let condition := evalBranchCondition cpu cpu.f2
    let condition := if cpu.opcode &&& 0x0008 ≠ 0 then !condition
      else condition
    if condition then { cpu with busSequence := .BRANCH_JUMP }
    else { cpu with busSequence := .BRANCH_SKIP }
  | 1 =>
    { cpu with busSequence :=
        if cpu.f1 ≠ 0 then .ADDRESS_INDIRECT_WRITE
        else .ADDRESS_DIRECT_WRITE }
  | _ =>
    { cpu with busSequence :=
        if cpu.f1 ≠ 0 then .ADDRESS_INDIRECT_READ
        else .ADDRESS_DIRECT_READ }

/-- Effective-address resolution with the register pre/post adjustments
(the `if (this.#operation !== B)` statement of the decode block). -/
def decodeExternalEA (cpu : CP1610) : CP1610 :=
  if cpu.operation ≠ 0 then
    let offset : Int := if cpu.d then 2 else 1
    match cpu.f1 with
    | 1 | 2 | 3 => { cpu with effectiveAddress := getReg cpu.r cpu.f1 }
    | 4 | 5 | 7 =>
      { cpu with effectiveAddress := getReg cpu.r cpu.f1,
                 r := setReg cpu.r cpu.f1 ((getReg cpu.r cpu.f1 : Int) + offset) }
    | 6 =>
      let cpu := if cpu.operation = 2 then
          { cpu with r := setReg cpu.r 6 ((getReg cpu.r 6 : Int) - offset) }
        else cpu
      let cpu := { cpu with effectiveAddress := getReg cpu.r 6 }
      if cpu.operation = 1 then
        { cpu with r := setReg cpu.r 6 ((getReg cpu.r 6 : Int) + offset) }
      else cpu
    | _ => cpu
  else cpu

/-- External decode arm: sequence selection, effective-address resolution
and the SDBD sequence upgrade, in source order. -/
def decodeExternal (cpu : CP1610) : CP1610 :=
  let cpu := decodeExternalSeq cpu
  let cpu := decodeExternalEA cpu
  if cpu.d ∧ cpu.busSequence = .ADDRESS_INDIRECT_READ then
    { cpu with busSequence := .ADDRESS_INDIRECT_READ_SDBD }
  else cpu

/-- Internal-instruction decode arm (the `else` branch of the decode block
in src/cp1610.ts): the internal-control operations, including HLT setting
the halted flag, and the execute-pad selection. -/
def decodeInternal (cpu : CP1610) : CP1610 :=
  match cpu.operation with
  | 0 =>
    match cpu.f1 with
    | 0 =>
      match cpu.f2 with
      | 4 => { cpu with busSequence := .JUMP }
      | 0 => { cpu with halted := true }
      | 1 => cpu
      | 2 => { cpu with i := true }
      | 3 => { cpu with i := false }
      | 5 => cpu
      | 6 => { cpu with c := false }
      | _ => { cpu with c := true }
    | _ => { cpu with busSequence := .EXEC_NACT_2 }
  | 1 =>
    { cpu with busSequence :=
        if cpu.f2 &&& 4 ≠ 0 then .EXEC_NACT_4 else .EXEC_NACT_2 }
  | _ => { cpu with busSequence := .EXEC_NACT_2 }

/-- Decode block run at the completion of INSTRUCTION_FETCH
(src/cp1610.ts): SDBD special case, field extraction, dispatch to the
external or internal arm, and the clearing of the D flag. -/
def decode (cpu : CP1610) : CP1610 :=
  if cpu.opcode = 1 then { cpu with d := true }
  else
    let external : Bool := decide (cpu.opcode &&& 0x0200 ≠ 0)
    let operation := (cpu.opcode &&& 0x01c0) >>> 6
    let f1 := (cpu.opcode &&& 0x0038) >>> 3
    let f2 := cpu.opcode &&& 0x0007
    let cpu := { cpu with external := external, operation := operation,
                          f1 := f1, f2 := f2 }
    let cpu : CP1610 :=
      if external then decodeExternal cpu else decodeInternal cpu
    if cpu.opcode ≠ 1 then { cpu with d := false } else cpu

/-- Per-tick bus-phase action of the CPU: the switch on the current bus
control value inside CP1610.clock (src/cp1610.ts).  The
`onInstructionFetch` hook has no effect on machine state and is omitted. -/
def phaseStep (cpu : CP1610) (bus : Bus) (busControl : Nat) : CP1610 × Bus :=
  match busControl with
  | 2 =>
    if cpu.ts = 1 then (cpu, bus.setData RESET_VECTOR)
    else if cpu.ts = 2 then
      ({ cpu with r := setReg cpu.r 7 (bus.data : Int) }, bus)
    else (cpu, bus)
  | 4 =>
    if cpu.ts = 2 then
      match cpu.busSequence with
      | .INITIALIZATION => (cpu, bus.setData RESET_VECTOR)
      | .ADDRESS_DIRECT_READ | .ADDRESS_DIRECT_WRITE | .JUMP | .BRANCH_JUMP
      | .INSTRUCTION_FETCH =>
        ({ cpu with r := setReg cpu.r 7 ((getReg cpu.r 7 : Int) + 1) },
          bus.setData (getReg cpu.r 7))
      | .ADDRESS_INDIRECT_READ | .ADDRESS_INDIRECT_WRITE =>
        (cpu, bus.setData cpu.effectiveAddress)
      | .ADDRESS_INDIRECT_READ_SDBD =>
        ({ cpu with effectiveAddress := cpu.effectiveAddress + 1 },
          bus.setData cpu.effectiveAddress)
      | .BRANCH_SKIP | .EXEC_NACT_2 | .EXEC_NACT_4 =>
        (cpu, bus.setData 0xaaaa)
    else (cpu, bus)
  | 3 =>
    if cpu.ts = 2 then
      match cpu.busSequence with
      | .INSTRUCTION_FETCH => ({ cpu with opcode := bus.data }, bus)
      | .JUMP =>
        if cpu.jumpOperand1 = none then
          ({ cpu with jumpOperand1 := some bus.data }, bus)
        else if cpu.jumpOperand2 = none then
          ({ cpu with jumpOperand2 := some bus.data }, bus)
        else (cpu, bus)
      | .ADDRESS_INDIRECT_READ_SDBD =>
        if cpu.busSequenceIndex = 2 then
          ({ cpu with dtbData := bus.data &&& 0x00ff }, bus)
        else
          ({ cpu with dtbData := cpu.dtbData ||| ((bus.data &&& 0x00ff) <<< 8) },
            bus)
      | _ => ({ cpu with dtbData := bus.data }, bus)
    else (cpu, bus)
  | 5 | 6 => (cpu, bus.setData (getReg cpu.r cpu.f2))
  | _ => (cpu, bus)

/-- End-of-micro-cycle bookkeeping of CP1610.clock: advance the sequence
index; at the end of a sequence run the transition rule (decode after a
fetch, execute after an addressing or pad sequence). -/
def endOfCycle (cpu : CP1610) : CP1610 :=
  let seqLen := (BusSequences cpu.busSequence).length
  let cpu := { cpu with busSequenceIndex := cpu.busSequenceIndex + 1 }
  if cpu.busSequenceIndex ≥ seqLen then
    let cpu := { cpu with busSequenceIndex := 0 }
    match cpu.busSequence with
    | .INITIALIZATION => { cpu with busSequence := .INSTRUCTION_FETCH }
    | .INSTRUCTION_FETCH => decode cpu
    | _ =>
      let cpu := if cpu.external then executeExternal cpu
        else executeInternal cpu
      { cpu with busSequence := .INSTRUCTION_FETCH,
                 jumpOperand1 := none, jumpOperand2 := none }
  else cpu

/-- CP1610.clock from src/cp1610.ts: return immediately when halted;
advance the time slot; assert the phase at slot 0; run the phase action;
at slot 3 advance the sequence. -/
def CP1610.clock (cpu : CP1610) (bus : Bus) : CP1610 × Bus :=
  if cpu.halted then (cpu, bus)
  else
    let cpu := { cpu with ts := (cpu.ts + 1) % 4 }
    let busControl := (BusSequences cpu.busSequence).getD cpu.busSequenceIndex 0
    let bus := if cpu.ts = 0 then { bus with flags := busControl } else bus
    let cb := phaseStep cpu bus busControl
    if cpu.ts = 3 then (endOfCycle cb.1, cb.2) else cb

/-- Iterated CPU clock. -/
def CP1610.clockN (cpu : CP1610) (bus : Bus) : Nat → CP1610 × Bus
  | 0 => (cpu, bus)
  | n + 1 =>
    let cb := cpu.clock bus
    CP1610.clockN cb.1 cb.2 n

/-- A minimal machine: the CPU and one memory device on the shared bus,
clocked in the registration order the test harness uses (CPU first, then
memory; the harness does not clock the bus itself). -/
structure Machine where
  cpu : CP1610
  ram : RAM
  bus : Bus
deriving DecidableEq

/-- One host tick of the machine. -/
def Machine.clock (m : Machine) : Machine :=
  let cb := m.cpu.clock m.bus
  let rb := m.ram.clock cb.2
  { cpu := cb.1, ram := rb.1, bus := rb.2 }

/-- Iterated machine clock. -/
def Machine.clockN (m : Machine) : Nat → Machine
  | 0 => m
  | n + 1 => m.clock.clockN n

/-! ### Basic lemmas about the numeric helpers -/

/-- `u16` of a natural number is reduction mod 2^16. -/
theorem u16_ofNat (n : Nat) : u16 (n : Int) = n % 65536 := by
  unfold u16; omega

/-- Reading back the register just stored. -/
theorem getReg_setReg_self (r : List Nat) (i : Nat) (v : Int)
    (h : i < r.length) : getReg (setReg r i v) i = u16 v := by
  simp [getReg, setReg, List.getD, List.getElem?_set_self, h]

/-- Reading a register other than the one just stored. -/
theorem getReg_setReg_ne (r : List Nat) (i j : Nat) (v : Int)
    (h : i ≠ j) : getReg (setReg r i v) j = getReg r j := by
  simp [getReg, setReg, List.getD, List.getElem?_set_ne h]

/-- A bitwise and with the sign mask takes one of two values. -/
theorem and_msb_cases (x : Nat) : x &&& 32768 = 0 ∨ x &&& 32768 = 32768 := by
  have h := Nat.and_two_pow x 15
  norm_num at h
  rcases Bool.eq_false_or_eq_true (x.testBit 15) with h1 | h1 <;>
    simp [h1] at h <;> omega

theorem or_eq_zero_iff (x y : Nat) : x ||| y = 0 ↔ x = 0 ∧ y = 0 := by
  constructor
  · intro h
    constructor
    · refine Nat.eq_of_testBit_eq fun i => ?_
      have := congrArg (fun n => Nat.testBit n i) h
      simp [Nat.testBit_or] at this
      simp [this.1]
    · refine Nat.eq_of_testBit_eq fun i => ?_
      have := congrArg (fun n => Nat.testBit n i) h
      simp [Nat.testBit_or] at this
      simp [this.2]
  · rintro ⟨rfl, rfl⟩
    rfl

theorem shiftRight_and_distrib (m n k : Nat) :
    (m &&& n) >>> k = m >>> k &&& n >>> k := by
  refine Nat.eq_of_testBit_eq fun i => ?_
  simp [Nat.testBit_shiftRight, Nat.testBit_and]

/-! ### Single-tick unfolding lemmas

With the control fields pinned, one call of `CP1610.clock` reduces
definitionally; these lemmas expose the final tick of each bus sequence
used by the theorems below. -/

theorem clock_exec2_end (cpu : CP1610) (bus : Bus) (hhalt : cpu.halted = false)
    (hts : cpu.ts = 2) (hseq : cpu.busSequence = .EXEC_NACT_2)
    (hidx : cpu.busSequenceIndex = 1) :
    CP1610.clock cpu bus = (endOfCycle { cpu with ts := 3 }, bus) := by
  obtain ⟨ts, seq, idx, opc, ext, op, g1, g2, ea, j1, j2, dtb, r, fs, fc, fz, fo, fi, fd, fh⟩ := cpu
  simp only at hhalt hts hseq hidx
  subst hhalt hts hseq hidx
  rfl

theorem clock_branch_jump_end (cpu : CP1610) (bus : Bus)
    (hhalt : cpu.halted = false) (hts : cpu.ts = 2)
    (hseq : cpu.busSequence = .BRANCH_JUMP) (hidx : cpu.busSequenceIndex = 4) :
    CP1610.clock cpu bus = (endOfCycle { cpu with ts := 3 }, bus) := by
  obtain ⟨ts, seq, idx, opc, ext, op, g1, g2, ea, j1, j2, dtb, r, fs, fc, fz, fo, fi, fd, fh⟩ := cpu
  simp only at hhalt hts hseq hidx
  subst hhalt hts hseq hidx
  rfl

theorem clock_indirect_read_end (cpu : CP1610) (bus : Bus)
    (hhalt : cpu.halted = false) (hts : cpu.ts = 2)
    (hseq : cpu.busSequence = .ADDRESS_INDIRECT_READ)
    (hidx : cpu.busSequenceIndex = 3) :
    CP1610.clock cpu bus = (endOfCycle { cpu with ts := 3 }, bus) := by
  obtain ⟨ts, seq, idx, opc, ext, op, g1, g2, ea, j1, j2, dtb, r, fs, fc, fz, fo, fi, fd, fh⟩ := cpu
  simp only at hhalt hts hseq hidx
  subst hhalt hts hseq hidx
  rfl

theorem clock_jump_end (cpu : CP1610) (bus : Bus)
    (hhalt : cpu.halted = false) (hts : cpu.ts = 2)
    (hseq : cpu.busSequence = .JUMP) (hidx : cpu.busSequenceIndex = 8) :
    CP1610.clock cpu bus = (endOfCycle { cpu with ts := 3 }, bus) := by
  obtain ⟨ts, seq, idx, opc, ext, op, g1, g2, ea, j1, j2, dtb, r, fs, fc, fz, fo, fi, fd, fh⟩ := cpu
  simp only at hhalt hts hseq hidx
  subst hhalt hts hseq hidx
  rfl

theorem clock_sdbd_end (cpu : CP1610) (bus : Bus)
    (hhalt : cpu.halted = false) (hts : cpu.ts = 2)
    (hseq : cpu.busSequence = .ADDRESS_INDIRECT_READ_SDBD)
    (hidx : cpu.busSequenceIndex = 5) :
    CP1610.clock cpu bus = (endOfCycle { cpu with ts := 3 }, bus) := by
  obtain ⟨ts, seq, idx, opc, ext, op, g1, g2, ea, j1, j2, dtb, r, fs, fc, fz, fo, fi, fd, fh⟩ := cpu
  simp only at hhalt hts hseq hidx
  subst hhalt hts hseq hidx
  rfl

theorem clock_fetch_end (cpu : CP1610) (bus : Bus)
    (hhalt : cpu.halted = false) (hts : cpu.ts = 2)
    (hseq : cpu.busSequence = .INSTRUCTION_FETCH)
    (hidx : cpu.busSequenceIndex = 3) :
    CP1610.clock cpu bus =
      (decode { cpu with ts := 3, busSequenceIndex := 0 }, bus) := by
  obtain ⟨ts, seq, idx, opc, ext, op, g1, g2, ea, j1, j2, dtb, r, fs, fc, fz, fo, fi, fd, fh⟩ := cpu
  simp only at hhalt hts hseq hidx
  subst hhalt hts hseq hidx
  rfl

theorem clock_sdbd_dtb_first (cpu : CP1610) (bus : Bus)
    (hhalt : cpu.halted = false) (hts : cpu.ts = 1)
    (hseq : cpu.busSequence = .ADDRESS_INDIRECT_READ_SDBD)
    (hidx : cpu.busSequenceIndex = 2) :
    CP1610.clock cpu bus =
      ({ cpu with ts := 2, dtbData := bus.data &&& 0x00ff }, bus) := by
  obtain ⟨ts, seq, idx, opc, ext, op, g1, g2, ea, j1, j2, dtb, r, fs, fc, fz, fo, fi, fd, fh⟩ := cpu
  simp only at hhalt hts hseq hidx
  subst hhalt hts hseq hidx
  rfl

theorem clock_sdbd_dtb_second (cpu : CP1610) (bus : Bus)
    (hhalt : cpu.halted = false) (hts : cpu.ts = 1)
    (hseq : cpu.busSequence = .ADDRESS_INDIRECT_READ_SDBD)
    (hidx : cpu.busSequenceIndex = 5) :
    CP1610.clock cpu bus =
      ({ cpu with
          ts := 2,
          dtbData := cpu.dtbData ||| ((bus.data &&& 0x00ff) <<< 8) }, bus) := by
  obtain ⟨ts, seq, idx, opc, ext, op, g1, g2, ea, j1, j2, dtb, r, fs, fc, fz, fo, fi, fd, fh⟩ := cpu
  simp only at hhalt hts hseq hidx
  subst hhalt hts hseq hidx
  rfl

/-! ### Sequence-completion unfolding lemmas -/

theorem endOfCycle_exec2_internal (cpu : CP1610)
    (hseq : cpu.busSequence = .EXEC_NACT_2) (hidx : cpu.busSequenceIndex = 1)
    (hext : cpu.external = false) :
    endOfCycle cpu =
      { executeInternal { cpu with busSequenceIndex := 0 } with
        busSequence := .INSTRUCTION_FETCH,
        jumpOperand1 := none, jumpOperand2 := none } := by
  obtain ⟨ts, seq, idx, opc, ext, op, g1, g2, ea, j1, j2, dtb, r, fs, fc, fz, fo, fi, fd, fh⟩ := cpu
  simp only at hseq hidx hext
  subst hseq hidx hext
  rfl

theorem endOfCycle_jump_internal (cpu : CP1610)
    (hseq : cpu.busSequence = .JUMP) (hidx : cpu.busSequenceIndex = 8)
    (hext : cpu.external = false) :
    endOfCycle cpu =
      { executeInternal { cpu with busSequenceIndex := 0 } with
        busSequence := .INSTRUCTION_FETCH,
        jumpOperand1 := none, jumpOperand2 := none } := by
  obtain ⟨ts, seq, idx, opc, ext, op, g1, g2, ea, j1, j2, dtb, r, fs, fc, fz, fo, fi, fd, fh⟩ := cpu
  simp only at hseq hidx hext
  subst hseq hidx hext
  rfl

theorem endOfCycle_branch_jump_external (cpu : CP1610)
    (hseq : cpu.busSequence = .BRANCH_JUMP) (hidx : cpu.busSequenceIndex = 4)
    (hext : cpu.external = true) :
    endOfCycle cpu =
      { executeExternal { cpu with busSequenceIndex := 0 } with
        busSequence := .INSTRUCTION_FETCH,
        jumpOperand1 := none, jumpOperand2 := none } := by
  obtain ⟨ts, seq, idx, opc, ext, op, g1, g2, ea, j1, j2, dtb, r, fs, fc, fz, fo, fi, fd, fh⟩ := cpu
  simp only at hseq hidx hext
  subst hseq hidx hext
  rfl

theorem endOfCycle_sdbd_external (cpu : CP1610)
    (hseq : cpu.busSequence = .ADDRESS_INDIRECT_READ_SDBD)
    (hidx : cpu.busSequenceIndex = 5) (hext : cpu.external = true) :
    endOfCycle cpu =
      { executeExternal { cpu with busSequenceIndex := 0 } with
        busSequence := .INSTRUCTION_FETCH,
        jumpOperand1 := none, jumpOperand2 := none } := by
  obtain ⟨ts, seq, idx, opc, ext, op, g1, g2, ea, j1, j2, dtb, r, fs, fc, fz, fo, fi, fd, fh⟩ := cpu
  simp only at hseq hidx hext
  subst hseq hidx hext
  rfl

/-! ### Execute-arm unfolding lemmas -/

theorem executeInternal_addr (cpu : CP1610) (hop : cpu.operation = 3) :
    executeInternal cpu =
      { cpu with
        r := setReg cpu.r cpu.f2
          ((getReg cpu.r cpu.f1 + getReg cpu.r cpu.f2 : Nat) : Int),
        c := decide (getReg cpu.r cpu.f1 + getReg cpu.r cpu.f2 > 0xffff),
        s := decide (getReg (setReg cpu.r cpu.f2
          ((getReg cpu.r cpu.f1 + getReg cpu.r cpu.f2 : Nat) : Int)) cpu.f2
            &&& 0x8000 ≠ 0),
        o := decide (0x8000 &&& getReg cpu.r cpu.f1
              = 0x8000 &&& getReg cpu.r cpu.f2) &&
          (decide (getReg (setReg cpu.r cpu.f2
            ((getReg cpu.r cpu.f1 + getReg cpu.r cpu.f2 : Nat) : Int)) cpu.f2
              &&& 0x8000 ≠ 0)
            != decide (0x8000 &&& getReg cpu.r cpu.f1 ≠ 0)),
        z := decide (getReg (setReg cpu.r cpu.f2
          ((getReg cpu.r cpu.f1 + getReg cpu.r cpu.f2 : Nat) : Int)) cpu.f2
            = 0) } := by
  obtain ⟨ts, seq, idx, opc, ext, op, g1, g2, ea, j1, j2, dtb, r, fs, fc, fz, fo, fi, fd, fh⟩ := cpu
  simp only at hop
  subst hop
  rfl

theorem executeInternal_subr (cpu : CP1610) (hop : cpu.operation = 4) :
    executeInternal cpu =
      { cpu with
        r := setReg cpu.r cpu.f2
          ((getReg cpu.r cpu.f2 : Int) - (getReg cpu.r cpu.f1 : Int)),
        c := decide (getReg cpu.r cpu.f2 ≥ getReg cpu.r cpu.f1),
        s := decide (u16 ((getReg cpu.r cpu.f2 : Int)
          - (getReg cpu.r cpu.f1 : Int)) &&& 0x8000 ≠ 0),
        z := decide ((getReg cpu.r cpu.f2 : Int)
          - (getReg cpu.r cpu.f1 : Int) = 0),
        o := decide (¬(0x8000 &&& getReg cpu.r cpu.f1
              = 0x8000 &&& getReg cpu.r cpu.f2)) &&
          (decide (u16 ((getReg cpu.r cpu.f2 : Int)
              - (getReg cpu.r cpu.f1 : Int)) &&& 0x8000 ≠ 0)
            == decide (0x8000 &&& getReg cpu.r cpu.f1 ≠ 0)) } := by
  obtain ⟨ts, seq, idx, opc, ext, op, g1, g2, ea, j1, j2, dtb, r, fs, fc, fz, fo, fi, fd, fh⟩ := cpu
  simp only at hop
  subst hop
  rfl

theorem executeInternal_cmpr (cpu : CP1610) (hop : cpu.operation = 5) :
    executeInternal cpu =
      { cpu with
        c := decide (getReg cpu.r cpu.f2 ≥ getReg cpu.r cpu.f1),
        s := decide (u16 ((getReg cpu.r cpu.f2 : Int)
          - (getReg cpu.r cpu.f1 : Int)) &&& 0x8000 ≠ 0),
        z := decide ((getReg cpu.r cpu.f2 : Int)
          - (getReg cpu.r cpu.f1 : Int) = 0),
        o := decide (¬(0x8000 &&& getReg cpu.r cpu.f1
              = 0x8000 &&& getReg cpu.r cpu.f2)) &&
          (decide (u16 ((getReg cpu.r cpu.f2 : Int)
              - (getReg cpu.r cpu.f1 : Int)) &&& 0x8000 ≠ 0)
            == decide (0x8000 &&& getReg cpu.r cpu.f1 ≠ 0)) } := by
  obtain ⟨ts, seq, idx, opc, ext, op, g1, g2, ea, j1, j2, dtb, r, fs, fc, fz, fo, fi, fd, fh⟩ := cpu
  simp only at hop
  subst hop
  rfl

theorem executeExternal_branch_taken (cpu : CP1610) (hop : cpu.operation = 0)
    (hseq : cpu.busSequence = .BRANCH_JUMP) :
    executeExternal cpu =
      { cpu with r := setReg cpu.r 7 ((getReg cpu.r 7 : Int) +
          (if cpu.opcode &&& 0x0020 ≠ 0 then (-1 : Int) else 1) *
            ((cpu.dtbData : Int) +
              (if (if cpu.opcode &&& 0x0020 ≠ 0 then (-1 : Int) else 1) > 0
                then 0 else 1))) } := by
  obtain ⟨ts, seq, idx, opc, ext, op, g1, g2, ea, j1, j2, dtb, r, fs, fc, fz, fo, fi, fd, fh⟩ := cpu
  simp only at hop hseq
  subst hop hseq
  rfl

theorem executeExternal_mvi (cpu : CP1610) (hop : cpu.operation = 2) :
    executeExternal cpu =
      { cpu with r := setReg cpu.r cpu.f2 (cpu.dtbData : Int) } := by
  obtain ⟨ts, seq, idx, opc, ext, op, g1, g2, ea, j1, j2, dtb, r, fs, fc, fz, fo, fi, fd, fh⟩ := cpu
  simp only at hop
  subst hop
  rfl

/-! ### Claim C5 -/

/-- C5: for ADDR at the completion of its execute pad, with a = R[F1] and
b = R[F2] read before the store, the destination receives (a + b) mod 2^16
and C holds iff a + b > 0xFFFF, Z iff the stored result is zero, S iff bit
15 of the stored result is set, and O iff the operand signs agree and the
stored result sign differs from them. -/
theorem addr_flags_correct (cpu : CP1610) (bus : Bus)
    (hlen : cpu.r.length = 8) (hf2 : cpu.f2 < 8)
    (hseq : cpu.busSequence = .EXEC_NACT_2) (hidx : cpu.busSequenceIndex = 1)
    (hts : cpu.ts = 2) (hhalt : cpu.halted = false)
    (hext : cpu.external = false) (hop : cpu.operation = 3) :
    getReg ((CP1610.clock cpu bus).1.r) cpu.f2
        = (getReg cpu.r cpu.f1 + getReg cpu.r cpu.f2) % 65536
    ∧ ((CP1610.clock cpu bus).1.c = true ↔
        getReg cpu.r cpu.f1 + getReg cpu.r cpu.f2 > 0xffff)
    ∧ ((CP1610.clock cpu bus).1.z = true ↔
        (getReg cpu.r cpu.f1 + getReg cpu.r cpu.f2) % 65536 = 0)
    ∧ ((CP1610.clock cpu bus).1.s = true ↔
        ((getReg cpu.r cpu.f1 + getReg cpu.r cpu.f2) % 65536) &&& 0x8000 ≠ 0)
    ∧ ((CP1610.clock cpu bus).1.o = true ↔
        (getReg cpu.r cpu.f1 &&& 0x8000 = getReg cpu.r cpu.f2 &&& 0x8000 ∧
          ¬(((getReg cpu.r cpu.f1 + getReg cpu.r cpu.f2) % 65536) &&& 0x8000
            = getReg cpu.r cpu.f1 &&& 0x8000))) := by
  obtain ⟨ts, seq, idx, opc, ext, op, g1, g2, ea, j1, j2, dtb, r, fs, fc, fz, fo, fi, fd, fh⟩ := cpu
  simp only at hlen hf2 hseq hidx hts hhalt hext hop ⊢
  subst hseq hidx hts hhalt hext hop
  rw [clock_exec2_end _ bus rfl rfl rfl rfl]
  rw [endOfCycle_exec2_internal _ rfl rfl rfl]
  rw [executeInternal_addr _ rfl]
  simp only
  rw [getReg_setReg_self _ _ _ (by omega), u16_ofNat]
  refine ⟨rfl, by simp, by simp, by simp, ?_⟩
  simp only [Bool.and_eq_true, decide_eq_true_eq, bne_iff_ne, ne_eq,
    decide_eq_decide]
  rcases and_msb_cases ((getReg r g1 + getReg r g2) % 65536) with hx | hx <;>
    rcases and_msb_cases (getReg r g1) with hy | hy <;>
      rcases and_msb_cases (getReg r g2) with hz | hz <;>
        rw [Nat.and_comm 32768 (getReg r g1), Nat.and_comm 32768 (getReg r g2)] <;>
          simp [hx, hy, hz]

/-- Concrete input for the C5 witness: ADDR R1, R2 with R1 = 0x7FFF,
R2 = 0x0001. -/
def cpuW5 : CP1610 :=
  { ts := 2, busSequence := .EXEC_NACT_2, busSequenceIndex := 1,
    external := false, operation := 3, f1 := 1, f2 := 2,
    r := [0, 0x7fff, 1, 0, 0, 0, 0, 0] }

theorem addr_flags_correct_witness :
    getReg ((CP1610.clock cpuW5 {}).1.r) cpuW5.f2
        = (getReg cpuW5.r cpuW5.f1 + getReg cpuW5.r cpuW5.f2) % 65536
    ∧ ((CP1610.clock cpuW5 {}).1.c = true ↔
        getReg cpuW5.r cpuW5.f1 + getReg cpuW5.r cpuW5.f2 > 0xffff)
    ∧ ((CP1610.clock cpuW5 {}).1.z = true ↔
        (getReg cpuW5.r cpuW5.f1 + getReg cpuW5.r cpuW5.f2) % 65536 = 0)
    ∧ ((CP1610.clock cpuW5 {}).1.s = true ↔
        ((getReg cpuW5.r cpuW5.f1 + getReg cpuW5.r cpuW5.f2) % 65536)
          &&& 0x8000 ≠ 0)
    ∧ ((CP1610.clock cpuW5 {}).1.o = true ↔
        (getReg cpuW5.r cpuW5.f1 &&& 0x8000
            = getReg cpuW5.r cpuW5.f2 &&& 0x8000 ∧
          ¬(((getReg cpuW5.r cpuW5.f1 + getReg cpuW5.r cpuW5.f2) % 65536)
              &&& 0x8000 = getReg cpuW5.r cpuW5.f1 &&& 0x8000))) :=
  addr_flags_correct cpuW5 {} (by decide) (by decide) rfl rfl rfl rfl rfl rfl

/-! ### Claim C6 -/

/-- C6: on any pair of operand registers, CMPR produces exactly the C, Z,
S, O values SUBR produces from the same starting state, and CMPR leaves
all eight registers unchanged. -/
theorem cmpr_subr_flags_agree (cpu : CP1610) (bus : Bus)
    (hseq : cpu.busSequence = .EXEC_NACT_2) (hidx : cpu.busSequenceIndex = 1)
    (hts : cpu.ts = 2) (hhalt : cpu.halted = false)
    (hext : cpu.external = false) :
    (CP1610.clock { cpu with operation := 5 } bus).1.r = cpu.r
    ∧ (CP1610.clock { cpu with operation := 5 } bus).1.c
        = (CP1610.clock { cpu with operation := 4 } bus).1.c
    ∧ (CP1610.clock { cpu with operation := 5 } bus).1.z
        = (CP1610.clock { cpu with operation := 4 } bus).1.z
    ∧ (CP1610.clock { cpu with operation := 5 } bus).1.s
        = (CP1610.clock { cpu with operation := 4 } bus).1.s
    ∧ (CP1610.clock { cpu with operation := 5 } bus).1.o
        = (CP1610.clock { cpu with operation := 4 } bus).1.o := by
  obtain ⟨ts, seq, idx, opc, ext, op, g1, g2, ea, j1, j2, dtb, r, fs, fc, fz, fo, fi, fd, fh⟩ := cpu
  simp only at hseq hidx hts hhalt hext ⊢
  subst hseq hidx hts hhalt hext
  rw [clock_exec2_end _ bus rfl rfl rfl rfl, clock_exec2_end _ bus rfl rfl rfl rfl]
  rw [endOfCycle_exec2_internal _ rfl rfl rfl, endOfCycle_exec2_internal _ rfl rfl rfl]
  rw [executeInternal_cmpr _ rfl, executeInternal_subr _ rfl]
  simp

/-- Concrete input for the C6 witness: operands R1 = 2, R2 = 0x8001. -/
def cpuW6 : CP1610 :=
  { ts := 2, busSequence := .EXEC_NACT_2, busSequenceIndex := 1,
    external := false, f1 := 1, f2 := 2,
    r := [0, 2, 0x8001, 0, 0, 0, 0, 0] }

theorem cmpr_subr_flags_agree_witness :
    (CP1610.clock { cpuW6 with operation := 5 } {}).1.r = cpuW6.r
    ∧ (CP1610.clock { cpuW6 with operation := 5 } {}).1.c
        = (CP1610.clock { cpuW6 with operation := 4 } {}).1.c
    ∧ (CP1610.clock { cpuW6 with operation := 5 } {}).1.z
        = (CP1610.clock { cpuW6 with operation := 4 } {}).1.z
    ∧ (CP1610.clock { cpuW6 with operation := 5 } {}).1.s
        = (CP1610.clock { cpuW6 with operation := 4 } {}).1.s
    ∧ (CP1610.clock { cpuW6 with operation := 5 } {}).1.o
        = (CP1610.clock { cpuW6 with operation := 4 } {}).1.o :=
  cmpr_subr_flags_agree cpuW6 {} rfl rfl rfl rfl rfl

/-! ### Claim C1 -/

/-- C1 counterexample: a taken backward branch (opcode bit 5 set) with
offset 5 and post-operand R7 = 100 lands at 94 = 100 - (5 + 1), not at
96 = 100 + ((-1) * 5 + 1) as the claim as stated would require. -/
theorem branch_taken_displacement_counterexample :
    getReg ((CP1610.clock
      { ts := 2, busSequence := .BRANCH_JUMP, busSequenceIndex := 4,
        opcode := 0x0220, external := true, operation := 0, dtbData := 5,
        r := [0, 0, 0, 0, 0, 0, 0, 100] } {}).1.r) 7 = 94
    ∧ ¬ getReg ((CP1610.clock
      { ts := 2, busSequence := .BRANCH_JUMP, busSequenceIndex := 4,
        opcode := 0x0220, external := true, operation := 0, dtbData := 5,
        r := [0, 0, 0, 0, 0, 0, 0, 100] } {}).1.r) 7
        = u16 ((100 : Int) + ((-1) * 5 + 1)) := by
  decide

/-- C1 amended: when the BRANCH_JUMP sequence completes, R7 becomes
R7 + direction * (offset + (direction > 0 ? 0 : 1)) mod 2^16, with
direction = -1 when opcode bit 5 is set and +1 otherwise, offset the
fetched operand word, and R7 the post-operand value (the claim as stated
parenthesised the displacement as direction * offset + (direction > 0 ?
0 : 1)). -/
theorem branch_taken_displacement_amended (cpu : CP1610) (bus : Bus)
    (hlen : cpu.r.length = 8)
    (hseq : cpu.busSequence = .BRANCH_JUMP) (hidx : cpu.busSequenceIndex = 4)
    (hts : cpu.ts = 2) (hhalt : cpu.halted = false)
    (hext : cpu.external = true) (hop : cpu.operation = 0) :
    getReg ((CP1610.clock cpu bus).1.r) 7 =
      u16 ((getReg cpu.r 7 : Int) +
        (if cpu.opcode &&& 0x0020 ≠ 0 then (-1 : Int) else 1) *
          ((cpu.dtbData : Int) +
            (if (if cpu.opcode &&& 0x0020 ≠ 0 then (-1 : Int) else 1) > 0
              then 0 else 1))) := by
  obtain ⟨ts, seq, idx, opc, ext, op, g1, g2, ea, j1, j2, dtb, r, fs, fc, fz, fo, fi, fd, fh⟩ := cpu
  simp only at hlen hseq hidx hts hhalt hext hop ⊢
  subst hseq hidx hts hhalt hext hop
  rw [clock_branch_jump_end _ bus rfl rfl rfl rfl]
  rw [endOfCycle_branch_jump_external _ rfl rfl rfl]
  rw [executeExternal_branch_taken _ rfl rfl]
  simp only
  rw [getReg_setReg_self _ _ _ (by omega)]

/-- Concrete input for the C1 witness: forward branch, offset 7, R7 =
0x1005. -/
def cpuW1 : CP1610 :=
  { ts := 2, busSequence := .BRANCH_JUMP, busSequenceIndex := 4,
    opcode := 0x0200, external := true, operation := 0, dtbData := 7,
    r := [0, 0, 0, 0, 0, 0, 0, 0x1005] }

theorem branch_taken_displacement_amended_witness :
    getReg ((CP1610.clock cpuW1 {}).1.r) 7 =
      u16 ((getReg cpuW1.r 7 : Int) +
        (if cpuW1.opcode &&& 0x0020 ≠ 0 then (-1 : Int) else 1) *
          ((cpuW1.dtbData : Int) +
            (if (if cpuW1.opcode &&& 0x0020 ≠ 0 then (-1 : Int) else 1) > 0
              then 0 else 1))) :=
  branch_taken_displacement_amended cpuW1 {} (by decide) rfl rfl rfl rfl rfl rfl

/-! ### Claim C2 -/

/-- C2 (code-bug evidence): the execute arms for the external ADD, SUB and
CMP operation classes are empty in the source, so at the completion of an
indirect read addressing sequence (here ADD@ R4, R0 with operand 1, SUB@
R4, R0, CMP@ R4, R0) the destination register and the C, Z, S, O flags are
all left unchanged, contradicting the documented add/subtract flag and
result semantics. -/
theorem external_add_sub_cmp_noop :
    (((CP1610.clock
      { ts := 2, busSequence := .ADDRESS_INDIRECT_READ, busSequenceIndex := 3,
        opcode := 0x02e0, external := true, operation := 3, f1 := 4, f2 := 0,
        dtbData := 1, r := [1, 0, 0, 0, 0x1011, 0, 0, 0x1002] } {}).1.r
        = [1, 0, 0, 0, 0x1011, 0, 0, 0x1002])
      ∧ ((CP1610.clock
      { ts := 2, busSequence := .ADDRESS_INDIRECT_READ, busSequenceIndex := 3,
        opcode := 0x02e0, external := true, operation := 3, f1 := 4, f2 := 0,
        dtbData := 1, r := [1, 0, 0, 0, 0x1011, 0, 0, 0x1002] } {}).1.c = false)
      ∧ ((CP1610.clock
      { ts := 2, busSequence := .ADDRESS_INDIRECT_READ, busSequenceIndex := 3,
        opcode := 0x02e0, external := true, operation := 3, f1 := 4, f2 := 0,
        dtbData := 1, r := [1, 0, 0, 0, 0x1011, 0, 0, 0x1002] } {}).1.z = false)
      ∧ ((CP1610.clock
      { ts := 2, busSequence := .ADDRESS_INDIRECT_READ, busSequenceIndex := 3,
        opcode := 0x02e0, external := true, operation := 3, f1 := 4, f2 := 0,
        dtbData := 1, r := [1, 0, 0, 0, 0x1011, 0, 0, 0x1002] } {}).1.s = false)
      ∧ ((CP1610.clock
      { ts := 2, busSequence := .ADDRESS_INDIRECT_READ, busSequenceIndex := 3,
        opcode := 0x02e0, external := true, operation := 3, f1 := 4, f2 := 0,
        dtbData := 1, r := [1, 0, 0, 0, 0x1011, 0, 0, 0x1002] } {}).1.o = false))
    ∧ ((CP1610.clock
      { ts := 2, busSequence := .ADDRESS_INDIRECT_READ, busSequenceIndex := 3,
        opcode := 0x0320, external := true, operation := 4, f1 := 4, f2 := 0,
        dtbData := 1, r := [1, 0, 0, 0, 0x1011, 0, 0, 0x1002] } {}).1.r
        = [1, 0, 0, 0, 0x1011, 0, 0, 0x1002]
      ∧ (CP1610.clock
      { ts := 2, busSequence := .ADDRESS_INDIRECT_READ, busSequenceIndex := 3,
        opcode := 0x0320, external := true, operation := 4, f1 := 4, f2 := 0,
        dtbData := 1, r := [1, 0, 0, 0, 0x1011, 0, 0, 0x1002] } {}).1.c = false)
    ∧ ((CP1610.clock
      { ts := 2, busSequence := .ADDRESS_INDIRECT_READ, busSequenceIndex := 3,
        opcode := 0x0360, external := true, operation := 5, f1 := 4, f2 := 0,
        dtbData := 1, r := [1, 0, 0, 0, 0x1011, 0, 0, 0x1002] } {}).1.r
        = [1, 0, 0, 0, 0x1011, 0, 0, 0x1002]
      ∧ (CP1610.clock
      { ts := 2, busSequence := .ADDRESS_INDIRECT_READ, busSequenceIndex := 3,
        opcode := 0x0360, external := true, operation := 5, f1 := 4, f2 := 0,
        dtbData := 1, r := [1, 0, 0, 0, 0x1011, 0, 0, 0x1002] } {}).1.c = false) := by
  decide

/-! ### Claim C4 -/

/-- C4 (code-bug evidence): decoding MOVR R0, R7 (opcode 0x0087, a
register-to-register move whose destination is R7) selects the two-NACT
execute pad EXEC_NACT_2 rather than EXEC_NACT_4; the source carries a TODO
noting the missing extra cycle for destination R6/R7.  A doubled shift
(SLL R0, 2: opcode 0x004C) does select EXEC_NACT_4. -/
theorem movr_r7_exec_pad_bug :
    ((CP1610.clock
      { ts := 2, busSequence := .INSTRUCTION_FETCH, busSequenceIndex := 3,
        opcode := 0x0087 } {}).1.busSequence = .EXEC_NACT_2)
    ∧ ¬((CP1610.clock
      { ts := 2, busSequence := .INSTRUCTION_FETCH, busSequenceIndex := 3,
        opcode := 0x0087 } {}).1.busSequence = .EXEC_NACT_4)
    ∧ ((CP1610.clock
      { ts := 2, busSequence := .INSTRUCTION_FETCH, busSequenceIndex := 3,
        opcode := 0x004c } {}).1.busSequence = .EXEC_NACT_4)
    ∧ ((CP1610.clock
      { ts := 2, busSequence := .INSTRUCTION_FETCH, busSequenceIndex := 3,
        opcode := 0x00b6 } {}).1.busSequence = .EXEC_NACT_2) := by
  decide

/-! ### Further register-file lemmas -/

theorem setReg_length (r : List Nat) (i : Nat) (v : Int) :
    (setReg r i v).length = r.length := by
  simp [setReg]

theorem getReg_lt (r : List Nat) (hw : ∀ x ∈ r, x < 65536) (i : Nat) :
    getReg r i < 65536 := by
  unfold getReg
  by_cases h : i < r.length
  · rw [List.getD_eq_getElem?_getD, List.getElem?_eq_getElem h]
    exact hw _ (List.getElem_mem h)
  · rw [List.getD_eq_getElem?_getD, List.getElem?_eq_none (by omega)]
    norm_num

theorem u16_id (n : Nat) (h : n < 65536) : u16 (n : Int) = n := by
  rw [u16_ofNat]
  omega

/-- C8: at the completion of the JUMP sequence with operand words hi and
lo, R7 becomes ((hi AND 0x00FC) shifted left 8) OR (lo AND 0x03FF); when
rr = (hi shifted right 8) AND 3 is 0, 1 or 2 the link register R4, R5 or
R6 receives the post-fetch R7, and when rr = 3 no link register changes;
ff = hi AND 3 sets I when 01, clears I when 10, and leaves I unchanged
when 00 or 11. -/
theorem jump_family_correct (cpu : CP1610) (bus : Bus) (hi lo : Nat)
    (hlen : cpu.r.length = 8) (hw : ∀ x ∈ cpu.r, x < 65536)
    (hseq : cpu.busSequence = .JUMP) (hidx : cpu.busSequenceIndex = 8)
    (hts : cpu.ts = 2) (hhalt : cpu.halted = false)
    (hext : cpu.external = false) (hop : cpu.operation = 0)
    (hf1 : cpu.f1 = 0) (hf2 : cpu.f2 = 4)
    (hj1 : cpu.jumpOperand1 = some hi) (hj2 : cpu.jumpOperand2 = some lo) :
    getReg ((CP1610.clock cpu bus).1.r) 7
        = ((hi &&& 0x00fc) <<< 8) ||| (lo &&& 0x03ff)
    ∧ ((hi >>> 8) &&& 3 = 0 →
        getReg ((CP1610.clock cpu bus).1.r) 4 = getReg cpu.r 7)
    ∧ ((hi >>> 8) &&& 3 = 1 →
        getReg ((CP1610.clock cpu bus).1.r) 5 = getReg cpu.r 7)
    ∧ ((hi >>> 8) &&& 3 = 2 →
        getReg ((CP1610.clock cpu bus).1.r) 6 = getReg cpu.r 7)
    ∧ ((hi >>> 8) &&& 3 = 3 →
        getReg ((CP1610.clock cpu bus).1.r) 4 = getReg cpu.r 4
        ∧ getReg ((CP1610.clock cpu bus).1.r) 5 = getReg cpu.r 5
        ∧ getReg ((CP1610.clock cpu bus).1.r) 6 = getReg cpu.r 6)
    ∧ (hi &&& 3 = 1 → (CP1610.clock cpu bus).1.i = true)
    ∧ (hi &&& 3 = 2 → (CP1610.clock cpu bus).1.i = false)
    ∧ (hi &&& 3 = 0 ∨ hi &&& 3 = 3 → (CP1610.clock cpu bus).1.i = cpu.i) := by
  obtain ⟨ts, seq, idx, opc, ext, op, g1, g2, ea, j1, j2, dtb, r, fs, fc, fz, fo, fi, fd, fh⟩ := cpu
  simp only at hlen hw hseq hidx hts hhalt hext hop hf1 hf2 hj1 hj2 ⊢
  subst hseq hidx hts hhalt hext hop hf1 hf2 hj1 hj2
  rw [clock_jump_end _ bus rfl rfl rfl rfl]
  rw [endOfCycle_jump_internal _ rfl rfl rfl]
  simp only [executeInternal, Option.getD]
  have hrr : (0x0300 &&& hi) >>> 8 = (hi >>> 8) &&& 3 := by
    rw [shiftRight_and_distrib, Nat.and_comm]
    have h768 : (0x0300 : Nat) >>> 8 = 3 := by decide
    rw [h768]
  have hff : (0x0003 &&& hi) = hi &&& 3 := Nat.and_comm _ _
  have htlt : ((0x00fc &&& hi) <<< 8) ||| (0x03ff &&& lo) < 65536 := by
    have h1 : (0x00fc &&& hi) <<< 8 < 65536 := by
      have : 0x00fc &&& hi ≤ 0x00fc := Nat.and_le_left
      calc (0x00fc &&& hi) <<< 8 = (0x00fc &&& hi) * 256 := by
            rw [Nat.shiftLeft_eq]
          _ < 65536 := by omega
    have h2 : 0x03ff &&& lo < 65536 := by
      have : 0x03ff &&& lo ≤ 0x03ff := Nat.and_le_left
      omega
    exact Nat.or_lt_two_pow (n := 16) h1 h2
  have htgt : ((0x00fc &&& hi) <<< 8) ||| (0x03ff &&& lo)
      = ((hi &&& 0x00fc) <<< 8) ||| (lo &&& 0x03ff) := by
    rw [Nat.and_comm 0x00fc hi, Nat.and_comm 0x03ff lo]
  rw [hrr, hff]
  have hb : (hi >>> 8) &&& 3 ≤ 3 := Nat.and_le_right
  have hfb : hi &&& 3 ≤ 3 := Nat.and_le_right
  have hr7 : getReg r 7 < 65536 := getReg_lt r hw 7
  interval_cases hrv : (hi >>> 8) &&& 3 <;> interval_cases hfv : hi &&& 3 <;>
    simp_all [getReg_setReg_self, getReg_setReg_ne, setReg_length, u16_id,
      htlt, u16_ofNat, Nat.mod_eq_of_lt htlt]

/-- Concrete input for the C8 witness: JSRD R5, 0x1026 (operand words
0x0112, 0x0026) with post-fetch R7 = 0x1003. -/
def cpuW8 : CP1610 :=
  { ts := 2, busSequence := .JUMP, busSequenceIndex := 8,
    external := false, operation := 0, f1 := 0, f2 := 4,
    jumpOperand1 := some 0x0112, jumpOperand2 := some 0x0026,
    r := [0, 0, 0, 0, 0, 0, 0, 0x1003] }

theorem jump_family_correct_witness :
    getReg ((CP1610.clock cpuW8 {}).1.r) 7
        = ((0x0112 &&& 0x00fc) <<< 8) ||| (0x0026 &&& 0x03ff)
    ∧ ((0x0112 >>> 8) &&& 3 = 0 →
        getReg ((CP1610.clock cpuW8 {}).1.r) 4 = getReg cpuW8.r 7)
    ∧ ((0x0112 >>> 8) &&& 3 = 1 →
        getReg ((CP1610.clock cpuW8 {}).1.r) 5 = getReg cpuW8.r 7)
    ∧ ((0x0112 >>> 8) &&& 3 = 2 →
        getReg ((CP1610.clock cpuW8 {}).1.r) 6 = getReg cpuW8.r 7)
    ∧ ((0x0112 >>> 8) &&& 3 = 3 →
        getReg ((CP1610.clock cpuW8 {}).1.r) 4 = getReg cpuW8.r 4
        ∧ getReg ((CP1610.clock cpuW8 {}).1.r) 5 = getReg cpuW8.r 5
        ∧ getReg ((CP1610.clock cpuW8 {}).1.r) 6 = getReg cpuW8.r 6)
    ∧ (0x0112 &&& 3 = 1 → (CP1610.clock cpuW8 {}).1.i = true)
    ∧ (0x0112 &&& 3 = 2 → (CP1610.clock cpuW8 {}).1.i = false)
    ∧ (0x0112 &&& 3 = 0 ∨ 0x0112 &&& 3 = 3 →
        (CP1610.clock cpuW8 {}).1.i = cpuW8.i) :=
  jump_family_correct cpuW8 {} 0x0112 0x0026 (by decide) (by decide)
    rfl rfl rfl rfl rfl rfl rfl rfl rfl rfl

/-! ### Claim C3 -/

/-- C3 counterexample: decoding ADD@ R6, R0 (opcode 0x02F0) with R6 = 50
leaves R6 = 50 and uses 50 as the effective address; the claimed
pre-decrement to 49 does not happen for the ADD class. -/
theorem stack_predecrement_counterexample :
    ((CP1610.clock
      { ts := 2, busSequence := .INSTRUCTION_FETCH, busSequenceIndex := 3,
        opcode := 0x02f0, r := [0, 0, 0, 0, 0, 0, 50, 0x1001] }
      {}).1.effectiveAddress = 50)
    ∧ getReg ((CP1610.clock
      { ts := 2, busSequence := .INSTRUCTION_FETCH, busSequenceIndex := 3,
        opcode := 0x02f0, r := [0, 0, 0, 0, 0, 0, 50, 0x1001] }
      {}).1.r) 6 = 50
    ∧ ¬((CP1610.clock
      { ts := 2, busSequence := .INSTRUCTION_FETCH, busSequenceIndex := 3,
        opcode := 0x02f0, r := [0, 0, 0, 0, 0, 0, 50, 0x1001] }
      {}).1.effectiveAddress = 49) := by
  decide

/-- C3 amended: at decode of an external instruction with F1 = 6, only the
MVI operation class (operation field 010) pre-decrements R6 by (D ? 2 : 1)
and reads through the decremented value; the ADD, SUB, CMP, AND and XOR
classes (operation field at least 3) use R6 unmodified as the effective
address and change no register; the MVO class writes through the current
R6 and post-increments it by (D ? 2 : 1). -/
theorem stack_r6_addressing_amended (cpu : CP1610) (bus : Bus)
    (hlen : cpu.r.length = 8) (hhalt : cpu.halted = false) (hts : cpu.ts = 2)
    (hseq : cpu.busSequence = .INSTRUCTION_FETCH)
    (hidx : cpu.busSequenceIndex = 3)
    (hext : cpu.opcode &&& 0x0200 ≠ 0)
    (hf1 : (cpu.opcode &&& 0x0038) >>> 3 = 6) :
    ((cpu.opcode &&& 0x01c0) >>> 6 = 2 →
      getReg ((CP1610.clock cpu bus).1.r) 6
          = u16 ((getReg cpu.r 6 : Int) - (if cpu.d then 2 else 1))
      ∧ (CP1610.clock cpu bus).1.effectiveAddress
          = u16 ((getReg cpu.r 6 : Int) - (if cpu.d then 2 else 1)))
    ∧ (3 ≤ (cpu.opcode &&& 0x01c0) >>> 6 →
      (CP1610.clock cpu bus).1.effectiveAddress = getReg cpu.r 6
      ∧ (CP1610.clock cpu bus).1.r = cpu.r)
    ∧ ((cpu.opcode &&& 0x01c0) >>> 6 = 1 →
      (CP1610.clock cpu bus).1.effectiveAddress = getReg cpu.r 6
      ∧ getReg ((CP1610.clock cpu bus).1.r) 6
          = u16 ((getReg cpu.r 6 : Int) + (if cpu.d then 2 else 1))) := by
  have hne1 : cpu.opcode ≠ 1 := by
    intro h
    rw [h] at hext
    simp at hext
  obtain ⟨ts, seq, idx, opc, ext, op, g1, g2, ea, j1, j2, dtb, r, fs, fc, fz, fo, fi, fd, fh⟩ := cpu
  simp only at hlen hhalt hts hseq hidx hext hf1 hne1 ⊢
  subst hhalt hts hseq hidx
  rw [clock_fetch_end _ bus rfl rfl rfl rfl]
  have hople : (opc &&& 0x01c0) >>> 6 ≤ 7 := by
    have h1 : opc &&& 0x01c0 ≤ 0x01c0 := Nat.and_le_right
    rw [Nat.shiftRight_eq_div_pow]
    omega
  refine ⟨?_, ?_, ?_⟩
  · intro hop
    simp only [decode, decodeExternal, decodeExternalSeq, decodeExternalEA, if_neg hne1, hop, hf1]
    cases fd <;>
      simp [hext, hne1, getReg_setReg_self, hlen, setReg_length]
  · intro hop
    have hb : (opc &&& 0x01c0) >>> 6 = 3 ∨ (opc &&& 0x01c0) >>> 6 = 4 ∨
        (opc &&& 0x01c0) >>> 6 = 5 ∨ (opc &&& 0x01c0) >>> 6 = 6 ∨
        (opc &&& 0x01c0) >>> 6 = 7 := by omega
    rcases hb with hb | hb | hb | hb | hb <;>
      · simp only [decode, decodeExternal, decodeExternalSeq, decodeExternalEA, if_neg hne1, hb, hf1]
        cases fd <;> simp [hext, hne1]
  · intro hop
    simp only [decode, decodeExternal, decodeExternalSeq, decodeExternalEA, if_neg hne1, hop, hf1]
    cases fd <;>
      simp [hext, hne1, getReg_setReg_self, hlen, setReg_length]

/-- Concrete input for the C3 witness: MVI@ R6, R0 (opcode 0x02B0) with
R6 = 50 and D clear. -/
def cpuW3 : CP1610 :=
  { ts := 2, busSequence := .INSTRUCTION_FETCH, busSequenceIndex := 3,
    opcode := 0x02b0, r := [0, 0, 0, 0, 0, 0, 50, 0x1001] }

theorem stack_r6_addressing_amended_witness :
    ((cpuW3.opcode &&& 0x01c0) >>> 6 = 2 →
      getReg ((CP1610.clock cpuW3 {}).1.r) 6
          = u16 ((getReg cpuW3.r 6 : Int) - (if cpuW3.d then 2 else 1))
      ∧ (CP1610.clock cpuW3 {}).1.effectiveAddress
          = u16 ((getReg cpuW3.r 6 : Int) - (if cpuW3.d then 2 else 1)))
    ∧ (3 ≤ (cpuW3.opcode &&& 0x01c0) >>> 6 →
      (CP1610.clock cpuW3 {}).1.effectiveAddress = getReg cpuW3.r 6
      ∧ (CP1610.clock cpuW3 {}).1.r = cpuW3.r)
    ∧ ((cpuW3.opcode &&& 0x01c0) >>> 6 = 1 →
      (CP1610.clock cpuW3 {}).1.effectiveAddress = getReg cpuW3.r 6
      ∧ getReg ((CP1610.clock cpuW3 {}).1.r) 6
          = u16 ((getReg cpuW3.r 6 : Int) + (if cpuW3.d then 2 else 1))) :=
  stack_r6_addressing_amended cpuW3 {} (by decide) rfl rfl rfl rfl
    (by decide) (by decide)

/-! ### Claim C7 -/

/-- The machine for the C7 counterexample: program at 0x1000, R4 pointing
at the two byte words. -/
def machineC7 : Machine :=
  { cpu := { ts := 3, busSequence := .INSTRUCTION_FETCH, busSequenceIndex := 0,
             r := [0, 0, 0, 0, 0x1010, 0, 0, 0x1000] },
    ram := { data := [1, 0x03a0, 0, 0, 0, 0, 0, 0, 0, 0, 0, 0, 0, 0, 0, 0,
                      0x00cd, 0x00ab], start := 0x1000, ticks := 3 },
    bus := {} }

set_option maxRecDepth 100000 in
/-- C7 counterexample: a full machine run of the program SDBD; AND@ R4, R0
(an indirect read instruction with F1 = 4 executing with D set) against
byte words 0x00CD, 0x00AB.  The two fetches occur and assemble 0xABCD into
the operand latch, R4 advances by 2 and D ends false, but the destination
register receives R0 AND 0xABCD = 0, not the assembled word 0xABCD the
claim asserts for every indirect read instruction. -/
theorem sdbd_read_counterexample :
    getReg ((Machine.clockN machineC7 56).cpu.r) 0 = 0
    ∧ ¬(getReg ((Machine.clockN machineC7 56).cpu.r) 0 = 0xabcd)
    ∧ (Machine.clockN machineC7 56).cpu.dtbData = 0xabcd
    ∧ getReg ((Machine.clockN machineC7 56).cpu.r) 4 = 0x1012
    ∧ (Machine.clockN machineC7 56).cpu.d = false
    ∧ (Machine.clockN machineC7 56).cpu.busSequence = .INSTRUCTION_FETCH := by
  decide

theorem clock_sdbd_bar_first (cpu : CP1610) (bus : Bus)
    (hhalt : cpu.halted = false) (hts : cpu.ts = 1)
    (hseq : cpu.busSequence = .ADDRESS_INDIRECT_READ_SDBD)
    (hidx : cpu.busSequenceIndex = 0) :
    CP1610.clock cpu bus =
      ({ cpu with ts := 2, effectiveAddress := cpu.effectiveAddress + 1 },
        bus.setData cpu.effectiveAddress) := by
  obtain ⟨ts, seq, idx, opc, ext, op, g1, g2, ea, j1, j2, dtb, r, fs, fc, fz, fo, fi, fd, fh⟩ := cpu
  simp only at hhalt hts hseq hidx
  subst hhalt hts hseq hidx
  rfl

theorem clock_sdbd_bar_second (cpu : CP1610) (bus : Bus)
    (hhalt : cpu.halted = false) (hts : cpu.ts = 1)
    (hseq : cpu.busSequence = .ADDRESS_INDIRECT_READ_SDBD)
    (hidx : cpu.busSequenceIndex = 3) :
    CP1610.clock cpu bus =
      ({ cpu with ts := 2, effectiveAddress := cpu.effectiveAddress + 1 },
        bus.setData cpu.effectiveAddress) := by
  obtain ⟨ts, seq, idx, opc, ext, op, g1, g2, ea, j1, j2, dtb, r, fs, fc, fz, fo, fi, fd, fh⟩ := cpu
  simp only at hhalt hts hseq hidx
  subst hhalt hts hseq hidx
  rfl

/-- C7 amended: with D set at decode of an MVI-class indirect read with
F1 in 4, 5, 7, the CPU enters the six-phase SDBD read sequence,
advances R[F1] by 2 instead of 1, uses the old R[F1] as effective address
and clears D; each BAR of that sequence drives the effective address and
bumps it, the two DTB ticks assemble (low byte of first word) OR
(low byte of second word shifted left 8); at sequence completion the MVI
execute stores the assembled word in R[F2].  For the other read classes
the fetches, auto-increment and D-clear are identical, but ADD, SUB and
CMP store nothing and AND and XOR combine bitwise (see the
counterexample), so the claim holds in full only for MVI. -/
theorem sdbd_mvi_amended :
    (∀ cpu : CP1610, ∀ bus : Bus, cpu.r.length = 8 → cpu.halted = false →
      cpu.ts = 2 → cpu.busSequence = .INSTRUCTION_FETCH →
      cpu.busSequenceIndex = 3 → cpu.d = true →
      cpu.opcode &&& 0x0200 ≠ 0 → (cpu.opcode &&& 0x01c0) >>> 6 = 2 →
      ((cpu.opcode &&& 0x0038) >>> 3 = 4 ∨ (cpu.opcode &&& 0x0038) >>> 3 = 5 ∨
        (cpu.opcode &&& 0x0038) >>> 3 = 7) →
      (CP1610.clock cpu bus).1.busSequence = .ADDRESS_INDIRECT_READ_SDBD
      ∧ (CP1610.clock cpu bus).1.effectiveAddress
          = getReg cpu.r ((cpu.opcode &&& 0x0038) >>> 3)
      ∧ getReg ((CP1610.clock cpu bus).1.r) ((cpu.opcode &&& 0x0038) >>> 3)
          = u16 ((getReg cpu.r ((cpu.opcode &&& 0x0038) >>> 3) : Int) + 2)
      ∧ (CP1610.clock cpu bus).1.d = false)
    ∧ (∀ cpu : CP1610, ∀ bus : Bus, cpu.halted = false → cpu.ts = 1 →
      cpu.busSequence = .ADDRESS_INDIRECT_READ_SDBD →
      (cpu.busSequenceIndex = 0 ∨ cpu.busSequenceIndex = 3) →
      (CP1610.clock cpu bus).2.data = cpu.effectiveAddress &&& 65535
      ∧ (CP1610.clock cpu bus).1.effectiveAddress = cpu.effectiveAddress + 1)
    ∧ (∀ cpu : CP1610, ∀ bus : Bus, cpu.halted = false → cpu.ts = 1 →
      cpu.busSequence = .ADDRESS_INDIRECT_READ_SDBD →
      cpu.busSequenceIndex = 2 →
      (CP1610.clock cpu bus).1.dtbData = bus.data &&& 0x00ff)
    ∧ (∀ cpu : CP1610, ∀ bus : Bus, cpu.halted = false → cpu.ts = 1 →
      cpu.busSequence = .ADDRESS_INDIRECT_READ_SDBD →
      cpu.busSequenceIndex = 5 →
      (CP1610.clock cpu bus).1.dtbData
        = cpu.dtbData ||| ((bus.data &&& 0x00ff) <<< 8))
    ∧ (∀ cpu : CP1610, ∀ bus : Bus, cpu.r.length = 8 → cpu.f2 < 8 →
      cpu.halted = false → cpu.ts = 2 →
      cpu.busSequence = .ADDRESS_INDIRECT_READ_SDBD →
      cpu.busSequenceIndex = 5 → cpu.external = true → cpu.operation = 2 →
      getReg ((CP1610.clock cpu bus).1.r) cpu.f2 = cpu.dtbData % 65536
      ∧ (CP1610.clock cpu bus).1.busSequence = .INSTRUCTION_FETCH) := by
  refine ⟨?_, ?_, ?_, ?_, ?_⟩
  · intro cpu bus hlen hhalt hts hseq hidx hd hext hop hf1
    have hne1 : cpu.opcode ≠ 1 := by
      intro h
      rw [h] at hext
      simp at hext
    obtain ⟨ts, seq, idx, opc, ext, op, g1, g2, ea, j1, j2, dtb, r, fs, fc, fz, fo, fi, fd, fh⟩ := cpu
    simp only at hlen hhalt hts hseq hidx hd hext hop hf1 hne1 ⊢
    subst hhalt hts hseq hidx hd
    rw [clock_fetch_end _ bus rfl rfl rfl rfl]
    rcases hf1 with hf1 | hf1 | hf1 <;>
      · simp only [decode, decodeExternal, decodeExternalSeq, decodeExternalEA, if_neg hne1, hop, hf1]
        simp [hext, hne1, getReg_setReg_self, hlen, setReg_length,
          getReg_setReg_ne]
  · intro cpu bus hhalt hts hseq hidx
    rcases hidx with hidx | hidx
    · rw [clock_sdbd_bar_first cpu bus hhalt hts hseq hidx]
      simp [Bus.setData, Bus.data, Nat.and_assoc]
    · rw [clock_sdbd_bar_second cpu bus hhalt hts hseq hidx]
      simp [Bus.setData, Bus.data, Nat.and_assoc]
  · intro cpu bus hhalt hts hseq hidx
    rw [clock_sdbd_dtb_first cpu bus hhalt hts hseq hidx]
  · intro cpu bus hhalt hts hseq hidx
    rw [clock_sdbd_dtb_second cpu bus hhalt hts hseq hidx]
  · intro cpu bus hlen hf2 hhalt hts hseq hidx hext hop
    obtain ⟨ts, seq, idx, opc, ext, op, g1, g2, ea, j1, j2, dtb, r, fs, fc, fz, fo, fi, fd, fh⟩ := cpu
    simp only at hlen hf2 hhalt hts hseq hidx hext hop ⊢
    subst hhalt hts hseq hidx hext hop
    rw [clock_sdbd_end _ bus rfl rfl rfl rfl]
    rw [endOfCycle_sdbd_external _ rfl rfl rfl]
    rw [executeExternal_mvi _ rfl]
    simp only
    rw [getReg_setReg_self _ _ _ (by omega), u16_ofNat]
    simp

/-- Concrete inputs for the C7 witness: decode of MVI@ R4, R0 with D set;
the two BAR and two DTB ticks of the SDBD sequence; the MVI execute. -/
def cpuW7a : CP1610 :=
  { ts := 2, busSequence := .INSTRUCTION_FETCH, busSequenceIndex := 3,
    opcode := 0x02a0, d := true, r := [0, 0, 0, 0, 0x1010, 0, 0, 0x1001] }

def cpuW7b : CP1610 :=
  { ts := 1, busSequence := .ADDRESS_INDIRECT_READ_SDBD, busSequenceIndex := 0,
    effectiveAddress := 0x1010 }

def cpuW7c : CP1610 :=
  { ts := 1, busSequence := .ADDRESS_INDIRECT_READ_SDBD, busSequenceIndex := 2 }

def cpuW7d : CP1610 :=
  { ts := 1, busSequence := .ADDRESS_INDIRECT_READ_SDBD, busSequenceIndex := 5,
    dtbData := 0x00cd }

def cpuW7e : CP1610 :=
  { ts := 2, busSequence := .ADDRESS_INDIRECT_READ_SDBD, busSequenceIndex := 5,
    external := true, operation := 2, f2 := 0, dtbData := 0xabcd }

theorem sdbd_mvi_amended_witness :
    ((CP1610.clock cpuW7a {}).1.busSequence = .ADDRESS_INDIRECT_READ_SDBD
      ∧ (CP1610.clock cpuW7a {}).1.effectiveAddress
          = getReg cpuW7a.r ((cpuW7a.opcode &&& 0x0038) >>> 3)
      ∧ getReg ((CP1610.clock cpuW7a {}).1.r) ((cpuW7a.opcode &&& 0x0038) >>> 3)
          = u16 ((getReg cpuW7a.r ((cpuW7a.opcode &&& 0x0038) >>> 3) : Int) + 2)
      ∧ (CP1610.clock cpuW7a {}).1.d = false)
    ∧ ((CP1610.clock cpuW7b {}).2.data = cpuW7b.effectiveAddress &&& 65535
      ∧ (CP1610.clock cpuW7b {}).1.effectiveAddress
          = cpuW7b.effectiveAddress + 1)
    ∧ ((CP1610.clock cpuW7c { _data := 0x00cd }).1.dtbData
        = Bus.data { _data := 0x00cd } &&& 0x00ff)
    ∧ ((CP1610.clock cpuW7d { _data := 0x00ab }).1.dtbData
        = cpuW7d.dtbData ||| ((Bus.data { _data := 0x00ab } &&& 0x00ff) <<< 8))
    ∧ (getReg ((CP1610.clock cpuW7e {}).1.r) cpuW7e.f2
        = cpuW7e.dtbData % 65536
      ∧ (CP1610.clock cpuW7e {}).1.busSequence = .INSTRUCTION_FETCH) :=
  ⟨sdbd_mvi_amended.1 cpuW7a {} (by decide) rfl rfl rfl rfl rfl (by decide)
      (by decide) (by decide),
    sdbd_mvi_amended.2.1 cpuW7b {} rfl rfl rfl (Or.inl rfl),
    sdbd_mvi_amended.2.2.1 cpuW7c { _data := 0x00cd } rfl rfl rfl rfl,
    sdbd_mvi_amended.2.2.2.1 cpuW7d { _data := 0x00ab } rfl rfl rfl rfl,
    sdbd_mvi_amended.2.2.2.2 cpuW7e {} (by decide) (by decide) rfl rfl rfl rfl
      rfl rfl⟩

theorem and_mask16 (x : Nat) : x &&& 65535 = x % 65536 := by
  have h := Nat.and_pow_two_sub_one_eq_mod x 16
  norm_num at h
  exact h

/-! ### Claim C10 -/

/-- C10: when a memory device drives its stored word onto the bus at tick
1 of a DTB, ADAR or IAB phase, it also clears its latched address
selection (`_addr` becomes `none`); consequently, once deselected, a DTB
phase leaves both the bus and the device (except its tick counter)
untouched, so a second DTB with no intervening BAR or ADAR re-latch
leaves the bus data unchanged.  The ROM variant inherits this drive path
unchanged. -/
theorem ram_drive_clears_selection :
    (∀ ram : RAM, ∀ bus : Bus, ∀ a : Nat,
      (∀ x ∈ ram.data, x < 65536) → ram.ticks % 4 = 0 →
      (bus.flags = Bus.DTB ∨ bus.flags = Bus.ADAR ∨ bus.flags = Bus.IAB) →
      ram._addr = some a → a < ram.data.length →
      (RAM.clock ram bus).1._addr = none
      ∧ (RAM.clock ram bus).2.data = ram.data.getD a 0)
    ∧ (∀ ram : RAM, ∀ bus : Bus, ram._addr = none → bus.flags = Bus.DTB →
      (RAM.clock ram bus).2 = bus
      ∧ (RAM.clock ram bus).1 = { ram with ticks := (ram.ticks + 1) % 4 }) := by
  constructor
  · intro ram bus a hw hticks hflags haddr hlt
    have h1 : (ram.ticks + 1) % 4 = 1 := by omega
    have hv : ram.data[a]? = some ram.data[a] := List.getElem?_eq_getElem hlt
    have hvw : ram.data[a] < 65536 := hw _ (List.getElem_mem hlt)
    have hget : ram.data.getD a 0 = ram.data[a] := by
      rw [List.getD_eq_getElem?_getD, hv]
      rfl
    rcases hflags with hf | hf | hf <;>
      · simp only [RAM.clock, hf, Bus.DTB, Bus.ADAR, Bus.IAB, Bus.BAR,
          Bus.DWS, h1]
        norm_num
        simp only [RAM._assertDataAtAddrToBus, haddr, hv]
        simp [Bus.setData, Bus.data, hget, and_mask16]
        omega
  · intro ram bus haddr hf
    by_cases h1 : (ram.ticks + 1) % 4 = 1 <;>
      · simp only [RAM.clock, hf, Bus.DTB, Bus.BAR]
        norm_num
        simp [h1, RAM._assertDataAtAddrToBus, haddr]

/-- Concrete devices for the C10 witness. -/
def ramW10 : RAM :=
  { data := [0x1234, 0x5678], start := 0x0100, _addr := some 1, ticks := 0 }

def ramW10b : RAM := { data := [7], start := 0, _addr := none, ticks := 1 }

theorem ram_drive_clears_selection_witness :
    ((RAM.clock ramW10 { flags := Bus.DTB }).1._addr = none
      ∧ (RAM.clock ramW10 { flags := Bus.DTB }).2.data
          = ramW10.data.getD 1 0)
    ∧ ((RAM.clock ramW10b { flags := Bus.DTB }).2 = { flags := Bus.DTB }
      ∧ (RAM.clock ramW10b { flags := Bus.DTB }).1
          = { ramW10b with ticks := (ramW10b.ticks + 1) % 4 }) :=
  ⟨ram_drive_clears_selection.1 ramW10 { flags := Bus.DTB } 1 (by decide)
      (by decide) (Or.inl rfl) rfl (by decide),
    ram_drive_clears_selection.2 ramW10b { flags := Bus.DTB } rfl rfl⟩


theorem phaseStep_halted (cpu : CP1610) (bus : Bus) (bc : Nat) :
    (phaseStep cpu bus bc).1.halted = cpu.halted := by
  unfold phaseStep
  repeat' split <;> try rfl

theorem phaseStep_fst_ts3 (cpu : CP1610) (bus : Bus) (bc : Nat)
    (hts : cpu.ts = 3) : (phaseStep cpu bus bc).1 = cpu := by
  unfold phaseStep
  repeat' split <;> first | rfl | simp_all

theorem executeShift_halted (cpu : CP1610) :
    (executeShift cpu).halted = cpu.halted := by
  simp only [executeShift]
  repeat' split <;> try rfl

theorem executeExternal_halted (cpu : CP1610) :
    (executeExternal cpu).halted = cpu.halted := by
  simp only [executeExternal]
  repeat' split <;> try rfl

set_option maxHeartbeats 2000000 in
theorem executeInternal_halted (cpu : CP1610) :
    (executeInternal cpu).halted = cpu.halted := by
  obtain ⟨ts, seq, idx, opc, ext, op, g1, g2, ea, j1, j2, dtb, r, fs, fc, fz, fo, fi, fd, fh⟩ := cpu
  rcases op with _ | _ | _ | _ | _ | _ | _ | _ | op <;>
    rcases g1 with _ | _ | _ | _ | _ | _ | _ | _ | g1 <;>
      simp only [executeInternal, executeShift_halted] <;>
        repeat' split <;> try rfl

theorem decodeExternalSeq_halted (cpu : CP1610) :
    (decodeExternalSeq cpu).halted = cpu.halted := by
  simp only [decodeExternalSeq]
  repeat' split <;> try rfl

theorem decodeExternalEA_halted (cpu : CP1610) :
    (decodeExternalEA cpu).halted = cpu.halted := by
  obtain ⟨ts, seq, idx, opc, ext, op, g1, g2, ea, j1, j2, dtb, r, fs, fc, fz, fo, fi, fd, fh⟩ := cpu
  rcases g1 with _ | _ | _ | _ | _ | _ | _ | _ | g1 <;>
    simp only [decodeExternalEA] <;>
      repeat' split <;> try rfl

theorem decodeExternal_halted (cpu : CP1610) :
    (decodeExternal cpu).halted = cpu.halted := by
  simp only [decodeExternal]
  split <;>
    simp [decodeExternalSeq_halted, decodeExternalEA_halted]

theorem decodeInternal_halted_iff (cpu : CP1610) (h : cpu.halted = false) :
    ((decodeInternal cpu).halted = true) ↔
      (cpu.operation = 0 ∧ cpu.f1 = 0 ∧ cpu.f2 = 0) := by
  obtain ⟨ts, seq, idx, opc, ext, op, g1, g2, ea, j1, j2, dtb, r, fs, fc, fz, fo, fi, fd, fh⟩ := cpu
  simp only at h ⊢
  subst h
  unfold decodeInternal
  repeat' split <;> simp_all

theorem decode_halted_iff (cpu : CP1610) (h : cpu.halted = false) :
    ((decode cpu).halted = true) ↔
      (cpu.opcode &&& 512 = 0 ∧ (cpu.opcode &&& 448) >>> 6 = 0 ∧
        (cpu.opcode &&& 56) >>> 3 = 0 ∧ cpu.opcode &&& 7 = 0) := by
  obtain ⟨ts, seq, idx, opc, ext, op, g1, g2, ea, j1, j2, dtb, r, fs, fc, fz, fo, fi, fd, fh⟩ := cpu
  simp only at h ⊢
  subst h
  by_cases h1 : opc = 1
  · subst h1
    simp [decode]
  · simp only [decode, if_neg h1]
    by_cases hext : opc &&& 512 = 0
    · have hdec : decide (opc &&& 512 ≠ 0) = false := by simp [hext]
      simp only [hdec, Bool.false_eq_true, if_false, if_neg h1]
      split <;>
        · try dsimp only
          rw [decodeInternal_halted_iff _ rfl]
          simp [hext]
    · have hdec : decide (opc &&& 512 ≠ 0) = true := by simp [hext]
      simp only [hdec, if_true, if_neg h1]
      split <;>
        · try dsimp only
          rw [decodeExternal_halted]
          simp [hext]


theorem clock_halted_id (cpu : CP1610) (bus : Bus) (h : cpu.halted = true) :
    CP1610.clock cpu bus = (cpu, bus) := by
  simp [CP1610.clock, h]

set_option maxHeartbeats 1000000 in
theorem endOfCycle_halted_iff (cpu : CP1610) (h : cpu.halted = false)
    (hidx : cpu.busSequenceIndex < (BusSequences cpu.busSequence).length) :
    ((endOfCycle cpu).halted = true) ↔
      (cpu.busSequence = .INSTRUCTION_FETCH ∧ cpu.busSequenceIndex = 3 ∧
        cpu.opcode &&& 512 = 0 ∧ (cpu.opcode &&& 448) >>> 6 = 0 ∧
        (cpu.opcode &&& 56) >>> 3 = 0 ∧ cpu.opcode &&& 7 = 0) := by
  obtain ⟨ts, seq, idx, opc, ext, op, g1, g2, ea, j1, j2, dtb, r, fs, fc, fz, fo, fi, fd, fh⟩ := cpu
  simp only at h hidx ⊢
  subst h
  cases seq
  case INSTRUCTION_FETCH =>
    simp only [BusSequences, List.length] at hidx
    by_cases hge : idx + 1 ≥ 4
    · have h3 : idx = 3 := by omega
      subst h3
      simp only [endOfCycle, BusSequences]
      norm_num
      rw [decode_halted_iff _ rfl]
      try simp
    · have h3 : ¬(idx = 3) := by omega
      simp [endOfCycle, BusSequences, hge, h3]
  case INITIALIZATION =>
    by_cases hge : idx + 1 ≥ 5 <;> simp [endOfCycle, BusSequences, hge]
  case ADDRESS_INDIRECT_READ =>
    cases ext <;> by_cases hge : idx + 1 ≥ 4 <;>
      simp [endOfCycle, BusSequences, hge, executeExternal_halted,
        executeInternal_halted]
  case ADDRESS_INDIRECT_READ_SDBD =>
    cases ext <;> by_cases hge : idx + 1 ≥ 6 <;>
      simp [endOfCycle, BusSequences, hge, executeExternal_halted,
        executeInternal_halted]
  case ADDRESS_INDIRECT_WRITE =>
    cases ext <;> by_cases hge : idx + 1 ≥ 5 <;>
      simp [endOfCycle, BusSequences, hge, executeExternal_halted,
        executeInternal_halted]
  case ADDRESS_DIRECT_READ =>
    cases ext <;> by_cases hge : idx + 1 ≥ 6 <;>
      simp [endOfCycle, BusSequences, hge, executeExternal_halted,
        executeInternal_halted]
  case ADDRESS_DIRECT_WRITE =>
    cases ext <;> by_cases hge : idx + 1 ≥ 7 <;>
      simp [endOfCycle, BusSequences, hge, executeExternal_halted,
        executeInternal_halted]
  case JUMP =>
    cases ext <;> by_cases hge : idx + 1 ≥ 9 <;>
      simp [endOfCycle, BusSequences, hge, executeExternal_halted,
        executeInternal_halted]
  case BRANCH_SKIP =>
    cases ext <;> by_cases hge : idx + 1 ≥ 3 <;>
      simp [endOfCycle, BusSequences, hge, executeExternal_halted,
        executeInternal_halted]
  case BRANCH_JUMP =>
    cases ext <;> by_cases hge : idx + 1 ≥ 5 <;>
      simp [endOfCycle, BusSequences, hge, executeExternal_halted,
        executeInternal_halted]
  case EXEC_NACT_2 =>
    cases ext <;> by_cases hge : idx + 1 ≥ 2 <;>
      simp [endOfCycle, BusSequences, hge, executeExternal_halted,
        executeInternal_halted]
  case EXEC_NACT_4 =>
    cases ext <;> by_cases hge : idx + 1 ≥ 4 <;>
      simp [endOfCycle, BusSequences, hge, executeExternal_halted,
        executeInternal_halted]

/-- C9: the halted flag is sticky and is set only by decoding the HLT
opcode.  Part 1: a halted CPU returns immediately from clock, leaving CPU
and bus untouched.  Part 2: from a non-halted state (with the time slot
and sequence index in range), one clock call ends with halted set exactly
when it performs the decode at the final tick of INSTRUCTION_FETCH and
the fetched word decodes as HLT: bit 9 clear and operation, F1 and F2
fields all zero, i.e. the low ten bits of the opcode are zero (0x0000 is
the canonical such word).  Part 3: once halted, any number of clock calls
leaves the machine unchanged. -/
theorem hlt_halted_correct :
    (∀ cpu : CP1610, ∀ bus : Bus, cpu.halted = true →
      CP1610.clock cpu bus = (cpu, bus))
    ∧ (∀ cpu : CP1610, ∀ bus : Bus, cpu.halted = false → cpu.ts < 4 →
      cpu.busSequenceIndex < (BusSequences cpu.busSequence).length →
      (((CP1610.clock cpu bus).1.halted = true) ↔
        (cpu.ts = 2 ∧ cpu.busSequence = .INSTRUCTION_FETCH ∧
          cpu.busSequenceIndex = 3 ∧ cpu.opcode &&& 512 = 0 ∧
          (cpu.opcode &&& 448) >>> 6 = 0 ∧ (cpu.opcode &&& 56) >>> 3 = 0 ∧
          cpu.opcode &&& 7 = 0)))
    ∧ (∀ n : Nat, ∀ cpu : CP1610, ∀ bus : Bus, cpu.halted = true →
      CP1610.clockN cpu bus n = (cpu, bus)) := by
  refine ⟨fun cpu bus h => clock_halted_id cpu bus h, ?_, ?_⟩
  · intro cpu bus hh hts4 hidx
    by_cases h3 : (cpu.ts + 1) % 4 = 3
    · have hts2 : cpu.ts = 2 := by omega
      simp only [CP1610.clock, hh, Bool.false_eq_true, if_false, h3, if_true]
      rw [phaseStep_fst_ts3 _ _ _ (by simp)]
      rw [endOfCycle_halted_iff _ (by simp [hh]) (by simpa using hidx)]
      simp [hts2]
    · have hne2 : ¬(cpu.ts = 2) := by omega
      simp only [CP1610.clock, hh, Bool.false_eq_true, if_false, h3]
      simp [h3, phaseStep_halted, hne2, hh]
  · intro n
    induction n with
    | zero => intro cpu bus h; rfl
    | succ n ih =>
      intro cpu bus h
      simp only [CP1610.clockN]
      rw [clock_halted_id cpu bus h]
      exact ih cpu bus h

/-- Concrete inputs for the C9 witness. -/
def cpuW9h : CP1610 := { halted := true }

def cpuW9f : CP1610 :=
  { ts := 2, busSequence := .INSTRUCTION_FETCH, busSequenceIndex := 3,
    opcode := 0 }

theorem hlt_halted_correct_witness :
    CP1610.clock cpuW9h {} = (cpuW9h, {})
    ∧ (((CP1610.clock cpuW9f {}).1.halted = true) ↔
        (cpuW9f.ts = 2 ∧ cpuW9f.busSequence = .INSTRUCTION_FETCH ∧
          cpuW9f.busSequenceIndex = 3 ∧ cpuW9f.opcode &&& 512 = 0 ∧
          (cpuW9f.opcode &&& 448) >>> 6 = 0 ∧
          (cpuW9f.opcode &&& 56) >>> 3 = 0 ∧ cpuW9f.opcode &&& 7 = 0))
    ∧ CP1610.clockN cpuW9h {} 5 = (cpuW9h, {}) :=
  ⟨hlt_halted_correct.1 cpuW9h {} rfl,
    hlt_halted_correct.2.1 cpuW9f {} rfl (by decide) (by decide),
    hlt_halted_correct.2.2 5 cpuW9h {} rfl⟩

end Intv
